import Mathlib

/-!
# Verification of the tab/pane orchestration core of the terminal application

This file gives a shallow embedding of the tab-collection, MRU, tab-switcher
and pane-zoom logic of `TerminalPage` (source files
`src/unnamed/part_000` = TerminalPage.h and `src/unnamed/part_001` =
TerminalPage.cpp) and proves the behavioural claims about it.

The embedding models the single-threaded, cooperative execution described in
the design: XAML event cascades (TabView.SelectionChanged,
TabView.TabItemsChanged, the CommandPalette visibility callback) are executed
synchronously at the point where the source mutates the corresponding UI
property, exactly mirroring the handler bodies registered in
`TerminalPage::Create`.  Purely visual effects (icons, titles, telemetry,
content attachment) carry no collection state and are omitted.
-/

namespace Terminal

/-- A tab object.  Tabs are reference objects in the source; equality of this
structure models reference identity via the stable `id`.  `profile` is the
value returned by `Tab::GetFocusedProfile`, `readOnly` the value of
`TabBase::ReadOnly`, and `isSettings` distinguishes a `SettingsTab` from a
`TerminalTab` (`try_as<TerminalTab>` fails exactly on settings tabs). -/
structure Tab where
  id : Nat
  profile : Option Nat
  readOnly : Bool
  isSettings : Bool
deriving DecidableEq, Repr

/-- `TabSwitcherMode` from the settings model. -/
inductive TabSwitcherMode
  | inOrder
  | mostRecentlyUsed
  | disabled
deriving DecidableEq, Repr

/-- `SplitState` argument of `TerminalPage::_SplitPane` (orientation request). -/
inductive SplitKind
  | noSplit
  | horizontal
  | vertical
  | automatic
deriving DecidableEq, Repr

/-- `SplitType` argument of `TerminalPage::_SplitPane` (profile selection mode). -/
inductive SplitMode
  | manual
  | duplicate
deriving DecidableEq, Repr

/-- The state of a `TerminalPage` that the tab/MRU claims range over.

* `tabs` is `_tabs` (display order), `mruTabs` is `_mruTabs`.
* `selected` is the `TabViewItem` currently selected in `_tabView`,
  identified by its tab (`_tabView.SelectedItem`); `_GetFocusedTabIndex`
  is the index of that item.
* `paletteVisible` is `CommandPalette().Visibility() == Visible`.
* `flyoutOpen` is `_newTabButton.Flyout().IsOpen()`.
* `removing`, `rearranging`, `rearrangeFrom`, `rearrangeTo` are the fields of
  the same names.
* `settingsTab` is `_settingsTab`, `inStartup` is
  `_startupState == StartupState::InStartup`.
* `settingsProfiles` is the set of profile GUIDs present in `_settings`
  (what `_settings.FindProfile` / profile lookup can resolve).
* `paneCounts` associates to each tab id the number of leaf panes of its
  pane tree, `lastTabClosed` records that `_LastTabClosedHandlers` fired. -/
structure PageState where
  tabs : List Tab
  mruTabs : List Tab
  selected : Option Tab
  paletteVisible : Bool
  flyoutOpen : Bool
  removing : Bool
  rearranging : Bool
  rearrangeFrom : Option Nat
  rearrangeTo : Option Nat
  settingsTab : Option Tab
  tabSwitcherMode : TabSwitcherMode
  settingsProfiles : List Nat
  inStartup : Bool
  paneCounts : List (Nat × Nat)
  lastTabClosed : Bool
deriving DecidableEq, Repr

/-- `IVector::IndexOf`: index of the first occurrence of `t`, if present. -/
def indexOfTab (t : Tab) : List Tab → Option Nat
  | [] => none
  | x :: xs => if x = t then some 0 else (indexOfTab t xs).map (· + 1)

/-- `TerminalPage::_GetFocusedTabIndex`: the index of `_tabView.SelectedItem`
among the tab items (which mirror `_tabs`); `none` when nothing is selected
or the selected item is not in the list (the source's `IndexOf` failure). -/
def getFocusedTabIndex (s : PageState) : Option Nat :=
  match s.selected with
  | some t => indexOfTab t s.tabs
  | none => none

/-- `TerminalPage::_UpdateMRUTab(index)`: look the tab up by its in-order
index, find it in `_mruTabs`, and if it is not already at the head remove it
and reinsert it at index 0. -/
def updateMRUTab (s : PageState) (index : Nat) : PageState :=
  match s.tabs[index]? with
  | none => s
  | some tab =>
    match indexOfTab tab s.mruTabs with
    | none => s
    | some mruIndex =>
      if 0 < mruIndex then
        { s with mruTabs := tab :: s.mruTabs.eraseIdx mruIndex }
      else s

/-- `TerminalPage::_CommandPaletteClosed`: unless the new-tab button flyout is
open, refocus the active control and bump it in the MRU list. -/
def commandPaletteClosed (s : PageState) : PageState :=
  if s.flyoutOpen then s
  else
    match getFocusedTabIndex s with
    | some index => updateMRUTab s index
    | none => s

/-- Setting `CommandPalette().Visibility(...)`.  The property-changed callback
registered in `TerminalPage::Create` runs `_CommandPaletteClosed` whenever the
visibility transitions to collapsed (XAML raises the callback only on an
actual property change). -/
def setPaletteVisibility (s : PageState) (visible : Bool) : PageState :=
  if s.paletteVisible = visible then s
  else
    let s1 := { s with paletteVisible := visible }
    if visible then s1 else commandPaletteClosed s1

/-- `TerminalPage::_UpdatedSelectedTab(index)`: for a non-negative index the
body runs under `try`/`CATCH_LOG`, so an out-of-range `GetAt` leaves the state
unchanged; when the command palette is not visible the tab is focused and
`_UpdateMRUTab` runs (GH#7409 suppresses the bump during switcher preview). -/
def updatedSelectedTab (s : PageState) (index : Int) : PageState :=
  if 0 ≤ index then
    match s.tabs[index.toNat]? with
    | none => s
    | some _tab =>
      if s.paletteVisible then s else updateMRUTab s index.toNat
  else s

/-- Setting `_tabView.SelectedItem(item)`.  XAML raises `SelectionChanged`
only when the selection actually changes; the handler
`TerminalPage::_OnTabSelectionChanged` is suppressed while `_rearranging` or
`_removing` and otherwise forwards `SelectedIndex()` to
`_UpdatedSelectedTab`. -/
def setSelectedItem (s : PageState) (tab : Tab) : PageState :=
  if s.selected = some tab then s
  else
    let s1 := { s with selected := some tab }
    if s1.rearranging = false ∧ s1.removing = false then
      updatedSelectedTab s1
        (match indexOfTab tab s1.tabs with
         | some i => (i : Int)
         | none => -1)
    else s1

/-- `TerminalPage::_OnTabItemsChanged` for an `ItemRemoved` change: record the
rearrange source while dragging and collapse the command palette. -/
def onTabItemsChangedRemoved (s : PageState) (idx : Nat) : PageState :=
  let s1 := if s.rearranging then { s with rearrangeFrom := some idx } else s
  setPaletteVisibility s1 false

/-- `TerminalPage::_OnTabItemsChanged` for an `ItemInserted` change: record
the rearrange target while dragging and collapse the command palette. -/
def onTabItemsChangedInserted (s : PageState) (idx : Nat) : PageState :=
  let s1 := if s.rearranging then { s with rearrangeTo := some idx } else s
  setPaletteVisibility s1 false

/-- `TerminalPage::_CreateNewTabFromSettings`: append the new tab to `_tabs`
and `_mruTabs`, append its item to the tab view (raising
`_OnTabItemsChanged`), record one leaf pane for it, and finally select its
item, which kicks off `TabView::SelectionChanged`. -/
def createNewTabFromSettings (s : PageState) (newTab : Tab) : PageState :=
  let s1 := { s with
    tabs := s.tabs ++ [newTab]
    mruTabs := s.mruTabs ++ [newTab]
    paneCounts := s.paneCounts ++ [(newTab.id, 1)] }
  let s2 := onTabItemsChangedInserted s1 s.tabs.length
  setSelectedItem s2 newTab

/-- `TerminalPage::_OpenSettingsUI`: if no settings tab exists, create one and
insert it exactly like a terminal tab (append to `_tabs` and `_mruTabs`,
append the tab item, remember it in `_settingsTab`, select it); otherwise
just select the existing settings tab. -/
def openSettingsUI (s : PageState) (newTab : Tab) : PageState :=
  match s.settingsTab with
  | none =>
    let s1 := { s with
      tabs := s.tabs ++ [newTab]
      mruTabs := s.mruTabs ++ [newTab]
      paneCounts := s.paneCounts ++ [(newTab.id, 1)] }
    let s2 := onTabItemsChangedInserted s1 s.tabs.length
    let s3 := { s2 with settingsTab := some newTab }
    setSelectedItem s3 newTab
  | some st => setSelectedItem s st

/-- `TerminalPage::_SelectTab(tabIndex)`: returns whether the index was in
range; during startup it selects the item and calls `_UpdatedSelectedTab`
directly, afterwards it goes through `_SetFocusedTabIndex`, which sets
`_tabView.SelectedItem` on the dispatcher thread. -/
def selectTab (s : PageState) (tabIndex : Nat) : Bool × PageState :=
  if tabIndex < s.tabs.length then
    match s.tabs[tabIndex]? with
    | some tab =>
      if s.inStartup then
        let s1 := setSelectedItem s tab
        (true, updatedSelectedTab s1 (tabIndex : Int))
      else
        (true, setSelectedItem s tab)
    | none => (true, s)
  else (false, s)

/-- `2^32`, the modulus of the `uint32_t` arithmetic in `_SelectNextTab`. -/
def u32 : Nat := 4294967296

/-- `TerminalPage::_SelectNextTab(bMoveRight, customTabSwitcherMode)`.

In `Disabled` mode the source computes
`(tabCount + index + (bMoveRight ? 1 : -1)) % tabCount` in `uint32_t`
arithmetic (`-1` converts to `2^32 - 1`).  When `tabCount == 0` this is a
modulo by zero — undefined behaviour in C++ — which we make explicit by
returning `none`.  In the other modes the command palette is put into tab
switcher mode and made visible (the palette internals are an external
collaborator). -/
def selectNextTab (s : PageState) (bMoveRight : Bool)
    (customTabSwitcherMode : Option TabSwitcherMode) : Option PageState :=
  let index := (getFocusedTabIndex s).getD 0
  let tabSwitchMode := customTabSwitcherMode.getD s.tabSwitcherMode
  if tabSwitchMode = TabSwitcherMode.disabled then
    let tabCount := s.tabs.length
    if tabCount = 0 then
      none
    else
      let delta := if bMoveRight then 1 else u32 - 1
      let newTabIndex := ((tabCount + index + delta) % u32) % tabCount
      some (selectTab s newTabIndex).2
  else
    some (setPaletteVisibility s true)

/-- `std::clamp<int32_t>(v, lo, hi)`. -/
def clampInt (v lo hi : Int) : Int := min (max v lo) hi

/-- `TerminalPage::_RemoveTab(tab)`.  `dialogConfirmed` is the outcome of the
read-only close warning dialog (external UI input).  The body sets
`_removing`, captures the focused index, erases the tab from `_mruTabs` and
`_tabs`, removes its tab item (raising `_OnTabItemsChanged`), and when the
removed tab was focused picks the replacement focus: `mru[0]` in
`MostRecentlyUsed` mode, otherwise `clamp(tabIndex - 1, 0, _tabs.Size())`
over the post-removal list. -/
def removeTab (s : PageState) (tab : Tab) (dialogConfirmed : Bool) : PageState :=
  if tab.readOnly ∧ dialogConfirmed = false then s
  else
    match indexOfTab tab s.tabs with
    | none => s
    | some tabIndex =>
      let s1 := { s with removing := true }
      let focusedTabIndex := getFocusedTabIndex s1
      let s2 :=
        match indexOfTab tab s1.mruTabs with
        | some mruIndex => { s1 with mruTabs := s1.mruTabs.eraseIdx mruIndex }
        | none => s1
      let s3 := { s2 with tabs := s2.tabs.eraseIdx tabIndex }
      let s4 := onTabItemsChangedRemoved s3 tabIndex
      let s5 :=
        if s4.tabs.length = 0 then
          { s4 with lastTabClosed := true }
        else if focusedTabIndex = some tabIndex then
          if s4.tabSwitcherMode = TabSwitcherMode.mostRecentlyUsed then
            match s4.mruTabs[0]? with
            | some newSelectedTab =>
              match indexOfTab newSelectedTab s4.tabs with
              | some newSelectedIndex =>
                let s4a := updatedSelectedTab s4 (newSelectedIndex : Int)
                setSelectedItem s4a newSelectedTab
              | none => s4
            | none => s4
          else
            let newSelectedIndex := clampInt ((tabIndex : Int) - 1) 0 (s4.tabs.length : Int)
            let s4a := updatedSelectedTab s4 newSelectedIndex
            match s4.tabs[newSelectedIndex.toNat]? with
            | some newSelectedTab => setSelectedItem s4a newSelectedTab
            | none => s4a
        else s4
      let s6 :=
        if s5.rearranging then
          { s5 with rearranging := false, rearrangeFrom := none, rearrangeTo := none }
        else s5
      { s6 with removing := false }

/-- `TerminalPage::_TryMoveTab(currentTabIndex, suggestedNewTabIndex)`: clamp
the target, and when it differs from the source remove/reinsert the tab in
`_tabs`, mirror the change in the tab items (raising `_OnTabItemsChanged`
twice) and re-select the moved item. -/
def tryMoveTab (s : PageState) (currentTabIndex : Nat) (suggestedNewTabIndex : Int) :
    PageState :=
  let newTabIndex := (clampInt suggestedNewTabIndex 0 ((s.tabs.length : Int) - 1)).toNat
  if currentTabIndex ≠ newTabIndex then
    match s.tabs[currentTabIndex]? with
    | none => s
    | some tab =>
      let s1 := { s with tabs := (s.tabs.eraseIdx currentTabIndex).insertIdx newTabIndex tab }
      let s2 := onTabItemsChangedRemoved s1 currentTabIndex
      let s3 := onTabItemsChangedInserted s2 newTabIndex
      setSelectedItem s3 tab
  else s

/-- The `TabDragStarting` handler registered in `TerminalPage::Create`. -/
def tabDragStarting (s : PageState) : PageState :=
  { s with rearranging := true, rearrangeFrom := none, rearrangeTo := none }

/-- The `TabDragCompleted` handler registered in `TerminalPage::Create`: when
both rearrange endpoints were recorded and differ, move the tab inside
`_tabs`, then clear the drag state. -/
def tabDragCompleted (s : PageState) : PageState :=
  let s1 :=
    match s.rearrangeFrom, s.rearrangeTo with
    | some fromIdx, some toIdx =>
      if toIdx ≠ fromIdx then
        match s.tabs[fromIdx]? with
        | some tab => { s with tabs := (s.tabs.eraseIdx fromIdx).insertIdx toIdx tab }
        | none => s
      else s
    | _, _ => s
  { s1 with rearranging := false, rearrangeFrom := none, rearrangeTo := none }

/-- `TerminalPage::_OnSwitchToTabRequested`: a preview/commit step from the
command palette — find the tab and select it. -/
def onSwitchToTabRequested (s : PageState) (tab : Tab) : PageState :=
  match indexOfTab tab s.tabs with
  | some index => (selectTab s index).2
  | none => s

/-- Modelled from the spec: `TerminalSettings::CreateWithProfileByID` lives in
the settings model, which is not among the given sources.  Per §6 the profile
resolution collaborator maps a profile id to its settings or `NotFound`, and
the comment in `_DuplicateTab` / `_SplitPane` records that a vanished profile
makes the construction fail inside the `try` block.  `none` models that
failure (the thrown exception). -/
def createWithProfileByID (profiles : List Nat) (guid : Nat) : Option Unit :=
  if guid ∈ profiles then some () else none

/-- `TerminalPage::_GetFocusedTabImpl`: the focused tab, if it is a
`TerminalTab` (`try_as<TerminalTab>` returns null for the settings tab). -/
def focusedTerminalTab (s : PageState) : Option Tab :=
  match getFocusedTabIndex s with
  | some i =>
    match s.tabs[i]? with
    | some t => if t.isSettings then none else some t
    | none => none
  | none => none

/-- `TerminalPage::_DuplicateTab(tab)`: under `try`/`CATCH_LOG`, read the
focused profile; if present build settings for it — which throws when the
profile no longer exists, caught silently — and only on success create the
new tab (`newTab` stands for the tab object built from those settings). -/
def duplicateTab (s : PageState) (tab : Tab) (newTab : Tab) : PageState :=
  match tab.profile with
  | none => s
  | some guid =>
    match createWithProfileByID s.settingsProfiles guid with
    | none => s
    | some _ => createNewTabFromSettings s newTab

/-- `TerminalPage::_DuplicateFocusedTab`: duplicate the focused tab when a
`TerminalTab` is focused. -/
def duplicateFocusedTab (s : PageState) (newTab : Tab) : PageState :=
  match focusedTerminalTab s with
  | some terminalTab => duplicateTab s terminalTab newTab
  | none => s

/-- Bump the pane count of tab id `tid` by one. -/
def bumpPaneCount (counts : List (Nat × Nat)) (tid : Nat) : List (Nat × Nat) :=
  counts.map fun p => if p.1 = tid then (p.1, p.2 + 1) else p

/-- `TerminalPage::_SplitPane(splitType, splitMode, splitSize, newTerminalArgs)`.

Nothing happens for `SplitState::None` or without a focused `TerminalTab`.
In `Duplicate` mode with a known focused profile, settings construction
throws when the profile vanished from the live settings — caught by
`CATCH_LOG`, leaving the state untouched.  Otherwise the profile resolves via
`GetProfileForArgs` (`argsProfile`).  `canSplit` is the outcome of
`PreCalculateCanSplit` (a geometry input); on success the focused tab's pane
tree gains one leaf. -/
def splitPane (s : PageState) (splitType : SplitKind) (splitMode : SplitMode)
    (canSplit : Bool) (argsProfile : Nat) : PageState :=
  if splitType = SplitKind.noSplit then s
  else
    match focusedTerminalTab s with
    | none => s
    | some focusedTab =>
      let resolved : Option Nat :=
        match splitMode, focusedTab.profile with
        | SplitMode.duplicate, some guid =>
          (createWithProfileByID s.settingsProfiles guid).map fun _ => guid
        | SplitMode.duplicate, none => some argsProfile
        | SplitMode.manual, _ => some argsProfile
      match resolved with
      | none => s
      | some _realGuid =>
        if canSplit = false then s
        else { s with paneCounts := bumpPaneCount s.paneCounts focusedTab.id }

/-- The spec's `BumpMRU(tab)` as written in §4.2: "moves `tab` to index 0 of
`mru`, preserving relative order of the remainder."  Used to compare the
source's `_UpdateMRUTab` against the specified operation. -/
def moveToFront (t : Tab) (l : List Tab) : List Tab := t :: l.erase t

/-! ## Pane-zoom micro-step model

`_UnZoomIfNeeded` and the pane operations of `TerminalPage` are modelled as
sequences of micro-steps on the focused tab, in the order the source performs
them; this captures the temporal claim that tree mutations never run on a
zoomed tab. -/

/-- One primitive step of a pane operation on the focused tab:
`unzoom` is `_UnZoomIfNeeded` (→ `TerminalTab::ExitZoom`), `splitTree` is
`TerminalTab::SplitPane`, `closeLeaf` is `Pane::Close`, `resizeRatio` is
`TerminalTab::ResizePane`, `navigate` is `TerminalTab::NavigateFocus`. -/
inductive PaneMicro
  | unzoom
  | splitTree
  | closeLeaf
  | resizeRatio
  | navigate
deriving DecidableEq, Repr

/-- Whether a micro-step mutates the pane tree (split, close, resize). -/
def isTreeMutation : PaneMicro → Bool
  | .splitTree => true
  | .closeLeaf => true
  | .resizeRatio => true
  | _ => false

/-- The zoom-relevant state of one tab: its zoom flag and its leaf count. -/
structure ZoomTab where
  zoomed : Bool
  paneCount : Nat
deriving DecidableEq, Repr

/-- Execute one micro-step. -/
def execPaneMicro : PaneMicro → ZoomTab → ZoomTab
  | .unzoom, t => if t.zoomed then { t with zoomed := false } else t
  | .splitTree, t => { t with paneCount := t.paneCount + 1 }
  | .closeLeaf, t => { t with paneCount := t.paneCount - 1 }
  | .resizeRatio, t => t
  | .navigate, t => t

/-- A micro-step trace is zoom-safe when every tree-mutating step executes in
a state where the tab is not zoomed. -/
def zoomSafe : List PaneMicro → ZoomTab → Bool
  | [], _ => true
  | m :: ms, t => (!isTreeMutation m || !t.zoomed) && zoomSafe ms (execPaneMicro m t)

/-- Micro-step trace of `TerminalPage::_MoveFocus`: with a focused
`TerminalTab`, `_UnZoomIfNeeded` then `NavigateFocus`. -/
def moveFocusTrace (hasFocusedTerminalTab : Bool) : List PaneMicro :=
  if hasFocusedTerminalTab then [.unzoom, .navigate] else []

/-- Micro-step trace of `TerminalPage::_ResizePane`: with a focused
`TerminalTab`, `_UnZoomIfNeeded` then `ResizePane`. -/
def resizePaneTrace (hasFocusedTerminalTab : Bool) : List PaneMicro :=
  if hasFocusedTerminalTab then [.unzoom, .resizeRatio] else []

/-- Micro-step trace of `TerminalPage::_CloseFocusedPane`: with a focused
`TerminalTab`, `_UnZoomIfNeeded` runs first; `Pane::Close` follows only when
an active pane with a control exists and the read-only warning (if any) was
confirmed.  (The settings-tab branch removes a tab, not a pane.) -/
def closeFocusedPaneTrace (hasFocusedTerminalTab hasActivePane hasControl
    readOnlyProceed : Bool) : List PaneMicro :=
  if hasFocusedTerminalTab then
    .unzoom :: (if hasActivePane && hasControl && readOnlyProceed then [.closeLeaf] else [])
  else []

/-- Micro-step trace of `TerminalPage::_SplitPane`: the guards (`None` split
request, no focused `TerminalTab`, settings construction throwing for a
vanished duplicate profile, `PreCalculateCanSplit` failing) all exit before
any pane work; on the success path `_UnZoomIfNeeded` runs immediately before
`TerminalTab::SplitPane`. -/
def splitPaneTrace (isNoneRequest hasFocusedTerminalTab duplicateProfileMissing
    canSplit : Bool) : List PaneMicro :=
  if isNoneRequest then []
  else if !hasFocusedTerminalTab then []
  else if duplicateProfileMissing then []
  else if !canSplit then []
  else [.unzoom, .splitTree]

/-- The mutation operations of §4.2 as they occur in `TerminalPage`. -/
inductive PageOp
  | insertTab (newTab : Tab)
  | openSettings (newTab : Tab)
  | remove (tab : Tab) (dialogConfirmed : Bool)
  | move (currentTabIndex : Nat) (suggestedNewTabIndex : Int)
  | drag
  | bump (index : Nat)

/-- Apply a collection-mutating operation to the page. -/
def applyPageOp : PageOp → PageState → PageState
  | .insertTab t, s => createNewTabFromSettings s t
  | .openSettings t, s => openSettingsUI s t
  | .remove t d, s => removeTab s t d
  | .move c g, s => tryMoveTab s c g
  | .drag, s => tabDragCompleted s
  | .bump i, s => updateMRUTab s i

/-! ## Concrete sample states (used to witness the claim theorems) -/

def tabA : Tab := ⟨0, some 10, false, false⟩
def tabB : Tab := ⟨1, some 11, false, false⟩
def tabC : Tab := ⟨2, some 12, false, false⟩
def tabD : Tab := ⟨3, some 13, false, false⟩
def tabE : Tab := ⟨4, some 14, false, false⟩

/-- A page with four tabs `[A, B, C, D]` created in that order, focus on `D`,
switcher disabled, palette closed. -/
def basePage : PageState where
  tabs := [tabA, tabB, tabC, tabD]
  mruTabs := [tabD, tabC, tabB, tabA]
  selected := some tabD
  paletteVisible := false
  flyoutOpen := false
  removing := false
  rearranging := false
  rearrangeFrom := none
  rearrangeTo := none
  settingsTab := none
  tabSwitcherMode := TabSwitcherMode.disabled
  settingsProfiles := [10, 11, 12, 13]
  inStartup := false
  paneCounts := [(0, 1), (1, 1), (2, 1), (3, 1)]
  lastTabClosed := false

/-- A page with zero tabs. -/
def emptyPage : PageState :=
  { basePage with tabs := [], mruTabs := [], selected := none, paneCounts := [] }

/-- `basePage` after a settings reload that removed profile `10`, with focus
on tab `A` (whose recorded profile is the vanished `10`). -/
def stalePage : PageState :=
  { basePage with selected := some tabA, settingsProfiles := [11, 12, 13] }

/-- `basePage` with the command palette open in MRU switcher mode. -/
def palettePage : PageState :=
  { basePage with paletteVisible := true,
                  tabSwitcherMode := TabSwitcherMode.mostRecentlyUsed }

/-! ## Helper lemmas about `indexOfTab` and list surgery -/

theorem indexOfTab_cons_self (t : Tab) (l : List Tab) :
    indexOfTab t (t :: l) = some 0 := by
  simp [indexOfTab]

theorem indexOfTab_isSome_of_mem : ∀ {l : List Tab} {t : Tab}, t ∈ l →
    ∃ k, indexOfTab t l = some k
  | x :: xs, t, h => by
    by_cases hx : x = t
    · exact ⟨0, by simp [indexOfTab, hx]⟩
    · have h' : t ∈ xs := by
        rcases List.mem_cons.mp h with h | h
        · exact absurd h.symm hx
        · exact h
      obtain ⟨k, hk⟩ := indexOfTab_isSome_of_mem h'
      exact ⟨k + 1, by simp [indexOfTab, hx, hk]⟩

theorem indexOfTab_eq_none_of_not_mem : ∀ {l : List Tab} {t : Tab}, t ∉ l →
    indexOfTab t l = none
  | [], _, _ => rfl
  | x :: xs, t, h => by
    have hx : x ≠ t := fun e => h (e ▸ List.mem_cons_self x xs)
    have h' : t ∉ xs := fun m => h (List.mem_cons_of_mem x m)
    simp [indexOfTab, hx, indexOfTab_eq_none_of_not_mem h']

theorem indexOfTab_getElem : ∀ {l : List Tab} {t : Tab} {k : Nat},
    indexOfTab t l = some k → l[k]? = some t
  | x :: xs, t, k, h => by
    by_cases hx : x = t
    · simp only [indexOfTab, if_pos hx, Option.some.injEq] at h
      subst h
      simp [hx]
    · simp only [indexOfTab, if_neg hx, Option.map_eq_some'] at h
      obtain ⟨k', hk', rfl⟩ := h
      simpa using indexOfTab_getElem hk'

theorem indexOfTab_mem {l : List Tab} {t : Tab} {k : Nat}
    (h : indexOfTab t l = some k) : t ∈ l :=
  List.getElem?_mem (indexOfTab_getElem h)

theorem indexOfTab_lt_length {l : List Tab} {t : Tab} {k : Nat}
    (h : indexOfTab t l = some k) : k < l.length := by
  have := indexOfTab_getElem h
  exact (List.getElem?_eq_some.mp this).1

theorem indexOfTab_eraseIdx : ∀ {l : List Tab} {t : Tab} {k : Nat},
    indexOfTab t l = some k → l.eraseIdx k = l.erase t
  | x :: xs, t, k, h => by
    by_cases hx : x = t
    · simp only [indexOfTab, if_pos hx, Option.some.injEq] at h
      subst h
      simp [List.eraseIdx, List.erase_cons, hx]
    · simp only [indexOfTab, if_neg hx, Option.map_eq_some'] at h
      obtain ⟨k', hk', rfl⟩ := h
      simp [List.eraseIdx, List.erase_cons, hx, indexOfTab_eraseIdx hk']

theorem indexOfTab_of_nodup_getElem : ∀ {l : List Tab}, l.Nodup →
    ∀ {n : Nat} {t : Tab}, l[n]? = some t → indexOfTab t l = some n
  | x :: xs, hnd, n, t, h => by
    match n with
    | 0 =>
      simp only [List.getElem?_cons_zero, Option.some.injEq] at h
      simp [indexOfTab, h]
    | n + 1 =>
      simp only [List.getElem?_cons_succ] at h
      have hmem : t ∈ xs := List.getElem?_mem h
      have hx : x ≠ t := fun e => (List.nodup_cons.mp hnd).1 (e ▸ hmem)
      have := indexOfTab_of_nodup_getElem (List.nodup_cons.mp hnd).2 h
      simp [indexOfTab, hx, this]

theorem indexOfTab_append_self {l : List Tab} {t : Tab} (h : t ∉ l) :
    indexOfTab t (l ++ [t]) = some l.length := by
  induction l with
  | nil => simp [indexOfTab]
  | cons x xs ih =>
    have hx : x ≠ t := fun e => h (e ▸ List.mem_cons_self x xs)
    have h' : t ∉ xs := fun m => h (List.mem_cons_of_mem x m)
    simp [indexOfTab, hx, ih h']

theorem getElem?_append_self (l : List Tab) (t : Tab) :
    (l ++ [t])[l.length]? = some t := by
  induction l with
  | nil => rfl
  | cons x xs ih => simp

theorem eraseIdx_append_self (l : List Tab) (t : Tab) :
    (l ++ [t]).eraseIdx l.length = l := by
  induction l with
  | nil => rfl
  | cons x xs ih => simpa [List.eraseIdx] using ih

/-! ## Frame lemmas: which fields each cascade step can change

`_UpdateMRUTab` (and everything that only calls it) can replace `_mruTabs`
with a permutation of itself and touches nothing else; the selection and
visibility setters additionally write exactly the fields they name.  These
lemmas let the claim proofs push a state through a cascade of handler
calls. -/

@[simp] theorem updateMRUTab_tabs (s : PageState) (i : Nat) :
    (updateMRUTab s i).tabs = s.tabs := by
  unfold updateMRUTab
  try dsimp only
  (repeat' split) <;> rfl

@[simp] theorem updateMRUTab_selected (s : PageState) (i : Nat) :
    (updateMRUTab s i).selected = s.selected := by
  unfold updateMRUTab
  try dsimp only
  (repeat' split) <;> rfl

@[simp] theorem updateMRUTab_flyoutOpen (s : PageState) (i : Nat) :
    (updateMRUTab s i).flyoutOpen = s.flyoutOpen := by
  unfold updateMRUTab
  try dsimp only
  (repeat' split) <;> rfl

@[simp] theorem updateMRUTab_removing (s : PageState) (i : Nat) :
    (updateMRUTab s i).removing = s.removing := by
  unfold updateMRUTab
  try dsimp only
  (repeat' split) <;> rfl

@[simp] theorem updateMRUTab_rearranging (s : PageState) (i : Nat) :
    (updateMRUTab s i).rearranging = s.rearranging := by
  unfold updateMRUTab
  try dsimp only
  (repeat' split) <;> rfl

@[simp] theorem updateMRUTab_rearrangeFrom (s : PageState) (i : Nat) :
    (updateMRUTab s i).rearrangeFrom = s.rearrangeFrom := by
  unfold updateMRUTab
  try dsimp only
  (repeat' split) <;> rfl

@[simp] theorem updateMRUTab_rearrangeTo (s : PageState) (i : Nat) :
    (updateMRUTab s i).rearrangeTo = s.rearrangeTo := by
  unfold updateMRUTab
  try dsimp only
  (repeat' split) <;> rfl

@[simp] theorem updateMRUTab_settingsTab (s : PageState) (i : Nat) :
    (updateMRUTab s i).settingsTab = s.settingsTab := by
  unfold updateMRUTab
  try dsimp only
  (repeat' split) <;> rfl

@[simp] theorem updateMRUTab_tabSwitcherMode (s : PageState) (i : Nat) :
    (updateMRUTab s i).tabSwitcherMode = s.tabSwitcherMode := by
  unfold updateMRUTab
  try dsimp only
  (repeat' split) <;> rfl

@[simp] theorem updateMRUTab_settingsProfiles (s : PageState) (i : Nat) :
    (updateMRUTab s i).settingsProfiles = s.settingsProfiles := by
  unfold updateMRUTab
  try dsimp only
  (repeat' split) <;> rfl

@[simp] theorem updateMRUTab_inStartup (s : PageState) (i : Nat) :
    (updateMRUTab s i).inStartup = s.inStartup := by
  unfold updateMRUTab
  try dsimp only
  (repeat' split) <;> rfl

@[simp] theorem updateMRUTab_paneCounts (s : PageState) (i : Nat) :
    (updateMRUTab s i).paneCounts = s.paneCounts := by
  unfold updateMRUTab
  try dsimp only
  (repeat' split) <;> rfl

@[simp] theorem updateMRUTab_lastTabClosed (s : PageState) (i : Nat) :
    (updateMRUTab s i).lastTabClosed = s.lastTabClosed := by
  unfold updateMRUTab
  try dsimp only
  (repeat' split) <;> rfl

@[simp] theorem updateMRUTab_paletteVisible (s : PageState) (i : Nat) :
    (updateMRUTab s i).paletteVisible = s.paletteVisible := by
  unfold updateMRUTab
  try dsimp only
  (repeat' split) <;> rfl

theorem mem_cons_eraseIdx_of_indexOfTab {t tab : Tab} {l : List Tab} {k : Nat}
    (hk : indexOfTab tab l = some k) :
    t ∈ tab :: l.eraseIdx k ↔ t ∈ l := by
  rw [indexOfTab_eraseIdx hk]
  constructor
  · intro ht
    rcases List.mem_cons.mp ht with rfl | ht
    · exact indexOfTab_mem hk
    · exact List.mem_of_mem_erase ht
  · intro ht
    by_cases hteq : t = tab
    · exact hteq ▸ List.mem_cons_self _ _
    · exact List.mem_cons_of_mem _ ((List.mem_erase_of_ne hteq).mpr ht)

@[simp] theorem updateMRUTab_mem_mru (s : PageState) (i : Nat) (t : Tab) :
    t ∈ (updateMRUTab s i).mruTabs ↔ t ∈ s.mruTabs := by
  unfold updateMRUTab
  try dsimp only
  (repeat' split) <;>
    first
      | exact Iff.rfl
      | exact mem_cons_eraseIdx_of_indexOfTab (by assumption)

@[simp] theorem commandPaletteClosed_tabs (s : PageState) :
    (commandPaletteClosed s).tabs = s.tabs := by
  unfold commandPaletteClosed
  try dsimp only
  (repeat' split) <;> first | rfl | simp

@[simp] theorem commandPaletteClosed_selected (s : PageState) :
    (commandPaletteClosed s).selected = s.selected := by
  unfold commandPaletteClosed
  try dsimp only
  (repeat' split) <;> first | rfl | simp

@[simp] theorem commandPaletteClosed_flyoutOpen (s : PageState) :
    (commandPaletteClosed s).flyoutOpen = s.flyoutOpen := by
  unfold commandPaletteClosed
  try dsimp only
  (repeat' split) <;> first | rfl | simp

@[simp] theorem commandPaletteClosed_removing (s : PageState) :
    (commandPaletteClosed s).removing = s.removing := by
  unfold commandPaletteClosed
  try dsimp only
  (repeat' split) <;> first | rfl | simp

@[simp] theorem commandPaletteClosed_rearranging (s : PageState) :
    (commandPaletteClosed s).rearranging = s.rearranging := by
  unfold commandPaletteClosed
  try dsimp only
  (repeat' split) <;> first | rfl | simp

@[simp] theorem commandPaletteClosed_rearrangeFrom (s : PageState) :
    (commandPaletteClosed s).rearrangeFrom = s.rearrangeFrom := by
  unfold commandPaletteClosed
  try dsimp only
  (repeat' split) <;> first | rfl | simp

@[simp] theorem commandPaletteClosed_rearrangeTo (s : PageState) :
    (commandPaletteClosed s).rearrangeTo = s.rearrangeTo := by
  unfold commandPaletteClosed
  try dsimp only
  (repeat' split) <;> first | rfl | simp

@[simp] theorem commandPaletteClosed_settingsTab (s : PageState) :
    (commandPaletteClosed s).settingsTab = s.settingsTab := by
  unfold commandPaletteClosed
  try dsimp only
  (repeat' split) <;> first | rfl | simp

@[simp] theorem commandPaletteClosed_tabSwitcherMode (s : PageState) :
    (commandPaletteClosed s).tabSwitcherMode = s.tabSwitcherMode := by
  unfold commandPaletteClosed
  try dsimp only
  (repeat' split) <;> first | rfl | simp

@[simp] theorem commandPaletteClosed_settingsProfiles (s : PageState) :
    (commandPaletteClosed s).settingsProfiles = s.settingsProfiles := by
  unfold commandPaletteClosed
  try dsimp only
  (repeat' split) <;> first | rfl | simp

@[simp] theorem commandPaletteClosed_inStartup (s : PageState) :
    (commandPaletteClosed s).inStartup = s.inStartup := by
  unfold commandPaletteClosed
  try dsimp only
  (repeat' split) <;> first | rfl | simp

@[simp] theorem commandPaletteClosed_paneCounts (s : PageState) :
    (commandPaletteClosed s).paneCounts = s.paneCounts := by
  unfold commandPaletteClosed
  try dsimp only
  (repeat' split) <;> first | rfl | simp

@[simp] theorem commandPaletteClosed_lastTabClosed (s : PageState) :
    (commandPaletteClosed s).lastTabClosed = s.lastTabClosed := by
  unfold commandPaletteClosed
  try dsimp only
  (repeat' split) <;> first | rfl | simp

@[simp] theorem commandPaletteClosed_paletteVisible (s : PageState) :
    (commandPaletteClosed s).paletteVisible = s.paletteVisible := by
  unfold commandPaletteClosed
  try dsimp only
  (repeat' split) <;> first | rfl | simp

@[simp] theorem commandPaletteClosed_mem_mru (s : PageState) (t : Tab) :
    t ∈ (commandPaletteClosed s).mruTabs ↔ t ∈ s.mruTabs := by
  unfold commandPaletteClosed
  try dsimp only
  (repeat' split) <;> simp

@[simp] theorem setPaletteVisibility_tabs (s : PageState) (v : Bool) :
    (setPaletteVisibility s v).tabs = s.tabs := by
  unfold setPaletteVisibility
  try dsimp only
  (repeat' split) <;> first | rfl | simp

@[simp] theorem setPaletteVisibility_selected (s : PageState) (v : Bool) :
    (setPaletteVisibility s v).selected = s.selected := by
  unfold setPaletteVisibility
  try dsimp only
  (repeat' split) <;> first | rfl | simp

@[simp] theorem setPaletteVisibility_flyoutOpen (s : PageState) (v : Bool) :
    (setPaletteVisibility s v).flyoutOpen = s.flyoutOpen := by
  unfold setPaletteVisibility
  try dsimp only
  (repeat' split) <;> first | rfl | simp

@[simp] theorem setPaletteVisibility_removing (s : PageState) (v : Bool) :
    (setPaletteVisibility s v).removing = s.removing := by
  unfold setPaletteVisibility
  try dsimp only
  (repeat' split) <;> first | rfl | simp

@[simp] theorem setPaletteVisibility_rearranging (s : PageState) (v : Bool) :
    (setPaletteVisibility s v).rearranging = s.rearranging := by
  unfold setPaletteVisibility
  try dsimp only
  (repeat' split) <;> first | rfl | simp

@[simp] theorem setPaletteVisibility_rearrangeFrom (s : PageState) (v : Bool) :
    (setPaletteVisibility s v).rearrangeFrom = s.rearrangeFrom := by
  unfold setPaletteVisibility
  try dsimp only
  (repeat' split) <;> first | rfl | simp

@[simp] theorem setPaletteVisibility_rearrangeTo (s : PageState) (v : Bool) :
    (setPaletteVisibility s v).rearrangeTo = s.rearrangeTo := by
  unfold setPaletteVisibility
  try dsimp only
  (repeat' split) <;> first | rfl | simp

@[simp] theorem setPaletteVisibility_settingsTab (s : PageState) (v : Bool) :
    (setPaletteVisibility s v).settingsTab = s.settingsTab := by
  unfold setPaletteVisibility
  try dsimp only
  (repeat' split) <;> first | rfl | simp

@[simp] theorem setPaletteVisibility_tabSwitcherMode (s : PageState) (v : Bool) :
    (setPaletteVisibility s v).tabSwitcherMode = s.tabSwitcherMode := by
  unfold setPaletteVisibility
  try dsimp only
  (repeat' split) <;> first | rfl | simp

@[simp] theorem setPaletteVisibility_settingsProfiles (s : PageState) (v : Bool) :
    (setPaletteVisibility s v).settingsProfiles = s.settingsProfiles := by
  unfold setPaletteVisibility
  try dsimp only
  (repeat' split) <;> first | rfl | simp

@[simp] theorem setPaletteVisibility_inStartup (s : PageState) (v : Bool) :
    (setPaletteVisibility s v).inStartup = s.inStartup := by
  unfold setPaletteVisibility
  try dsimp only
  (repeat' split) <;> first | rfl | simp

@[simp] theorem setPaletteVisibility_paneCounts (s : PageState) (v : Bool) :
    (setPaletteVisibility s v).paneCounts = s.paneCounts := by
  unfold setPaletteVisibility
  try dsimp only
  (repeat' split) <;> first | rfl | simp

@[simp] theorem setPaletteVisibility_lastTabClosed (s : PageState) (v : Bool) :
    (setPaletteVisibility s v).lastTabClosed = s.lastTabClosed := by
  unfold setPaletteVisibility
  try dsimp only
  (repeat' split) <;> first | rfl | simp

@[simp] theorem setPaletteVisibility_paletteVisible (s : PageState) (v : Bool) :
    (setPaletteVisibility s v).paletteVisible = v := by
  unfold setPaletteVisibility
  try dsimp only
  (repeat' split) <;> simp_all

@[simp] theorem setPaletteVisibility_mem_mru (s : PageState) (v : Bool) (t : Tab) :
    t ∈ (setPaletteVisibility s v).mruTabs ↔ t ∈ s.mruTabs := by
  unfold setPaletteVisibility
  try dsimp only
  (repeat' split) <;> simp

@[simp] theorem updatedSelectedTab_tabs (s : PageState) (i : Int) :
    (updatedSelectedTab s i).tabs = s.tabs := by
  unfold updatedSelectedTab
  try dsimp only
  (repeat' split) <;> first | rfl | simp

@[simp] theorem updatedSelectedTab_selected (s : PageState) (i : Int) :
    (updatedSelectedTab s i).selected = s.selected := by
  unfold updatedSelectedTab
  try dsimp only
  (repeat' split) <;> first | rfl | simp

@[simp] theorem updatedSelectedTab_flyoutOpen (s : PageState) (i : Int) :
    (updatedSelectedTab s i).flyoutOpen = s.flyoutOpen := by
  unfold updatedSelectedTab
  try dsimp only
  (repeat' split) <;> first | rfl | simp

@[simp] theorem updatedSelectedTab_removing (s : PageState) (i : Int) :
    (updatedSelectedTab s i).removing = s.removing := by
  unfold updatedSelectedTab
  try dsimp only
  (repeat' split) <;> first | rfl | simp

@[simp] theorem updatedSelectedTab_rearranging (s : PageState) (i : Int) :
    (updatedSelectedTab s i).rearranging = s.rearranging := by
  unfold updatedSelectedTab
  try dsimp only
  (repeat' split) <;> first | rfl | simp

@[simp] theorem updatedSelectedTab_rearrangeFrom (s : PageState) (i : Int) :
    (updatedSelectedTab s i).rearrangeFrom = s.rearrangeFrom := by
  unfold updatedSelectedTab
  try dsimp only
  (repeat' split) <;> first | rfl | simp

@[simp] theorem updatedSelectedTab_rearrangeTo (s : PageState) (i : Int) :
    (updatedSelectedTab s i).rearrangeTo = s.rearrangeTo := by
  unfold updatedSelectedTab
  try dsimp only
  (repeat' split) <;> first | rfl | simp

@[simp] theorem updatedSelectedTab_settingsTab (s : PageState) (i : Int) :
    (updatedSelectedTab s i).settingsTab = s.settingsTab := by
  unfold updatedSelectedTab
  try dsimp only
  (repeat' split) <;> first | rfl | simp

@[simp] theorem updatedSelectedTab_tabSwitcherMode (s : PageState) (i : Int) :
    (updatedSelectedTab s i).tabSwitcherMode = s.tabSwitcherMode := by
  unfold updatedSelectedTab
  try dsimp only
  (repeat' split) <;> first | rfl | simp

@[simp] theorem updatedSelectedTab_settingsProfiles (s : PageState) (i : Int) :
    (updatedSelectedTab s i).settingsProfiles = s.settingsProfiles := by
  unfold updatedSelectedTab
  try dsimp only
  (repeat' split) <;> first | rfl | simp

@[simp] theorem updatedSelectedTab_inStartup (s : PageState) (i : Int) :
    (updatedSelectedTab s i).inStartup = s.inStartup := by
  unfold updatedSelectedTab
  try dsimp only
  (repeat' split) <;> first | rfl | simp

@[simp] theorem updatedSelectedTab_paneCounts (s : PageState) (i : Int) :
    (updatedSelectedTab s i).paneCounts = s.paneCounts := by
  unfold updatedSelectedTab
  try dsimp only
  (repeat' split) <;> first | rfl | simp

@[simp] theorem updatedSelectedTab_lastTabClosed (s : PageState) (i : Int) :
    (updatedSelectedTab s i).lastTabClosed = s.lastTabClosed := by
  unfold updatedSelectedTab
  try dsimp only
  (repeat' split) <;> first | rfl | simp

@[simp] theorem updatedSelectedTab_paletteVisible (s : PageState) (i : Int) :
    (updatedSelectedTab s i).paletteVisible = s.paletteVisible := by
  unfold updatedSelectedTab
  try dsimp only
  (repeat' split) <;> first | rfl | simp

@[simp] theorem updatedSelectedTab_mem_mru (s : PageState) (i : Int) (t : Tab) :
    t ∈ (updatedSelectedTab s i).mruTabs ↔ t ∈ s.mruTabs := by
  unfold updatedSelectedTab
  try dsimp only
  (repeat' split) <;> simp

@[simp] theorem setSelectedItem_tabs (s : PageState) (tab : Tab) :
    (setSelectedItem s tab).tabs = s.tabs := by
  unfold setSelectedItem
  try dsimp only
  (repeat' split) <;> first | rfl | simp

@[simp] theorem setSelectedItem_flyoutOpen (s : PageState) (tab : Tab) :
    (setSelectedItem s tab).flyoutOpen = s.flyoutOpen := by
  unfold setSelectedItem
  try dsimp only
  (repeat' split) <;> first | rfl | simp

@[simp] theorem setSelectedItem_removing (s : PageState) (tab : Tab) :
    (setSelectedItem s tab).removing = s.removing := by
  unfold setSelectedItem
  try dsimp only
  (repeat' split) <;> first | rfl | simp

@[simp] theorem setSelectedItem_rearranging (s : PageState) (tab : Tab) :
    (setSelectedItem s tab).rearranging = s.rearranging := by
  unfold setSelectedItem
  try dsimp only
  (repeat' split) <;> first | rfl | simp

@[simp] theorem setSelectedItem_rearrangeFrom (s : PageState) (tab : Tab) :
    (setSelectedItem s tab).rearrangeFrom = s.rearrangeFrom := by
  unfold setSelectedItem
  try dsimp only
  (repeat' split) <;> first | rfl | simp

@[simp] theorem setSelectedItem_rearrangeTo (s : PageState) (tab : Tab) :
    (setSelectedItem s tab).rearrangeTo = s.rearrangeTo := by
  unfold setSelectedItem
  try dsimp only
  (repeat' split) <;> first | rfl | simp

@[simp] theorem setSelectedItem_settingsTab (s : PageState) (tab : Tab) :
    (setSelectedItem s tab).settingsTab = s.settingsTab := by
  unfold setSelectedItem
  try dsimp only
  (repeat' split) <;> first | rfl | simp

@[simp] theorem setSelectedItem_tabSwitcherMode (s : PageState) (tab : Tab) :
    (setSelectedItem s tab).tabSwitcherMode = s.tabSwitcherMode := by
  unfold setSelectedItem
  try dsimp only
  (repeat' split) <;> first | rfl | simp

@[simp] theorem setSelectedItem_settingsProfiles (s : PageState) (tab : Tab) :
    (setSelectedItem s tab).settingsProfiles = s.settingsProfiles := by
  unfold setSelectedItem
  try dsimp only
  (repeat' split) <;> first | rfl | simp

@[simp] theorem setSelectedItem_inStartup (s : PageState) (tab : Tab) :
    (setSelectedItem s tab).inStartup = s.inStartup := by
  unfold setSelectedItem
  try dsimp only
  (repeat' split) <;> first | rfl | simp

@[simp] theorem setSelectedItem_paneCounts (s : PageState) (tab : Tab) :
    (setSelectedItem s tab).paneCounts = s.paneCounts := by
  unfold setSelectedItem
  try dsimp only
  (repeat' split) <;> first | rfl | simp

@[simp] theorem setSelectedItem_lastTabClosed (s : PageState) (tab : Tab) :
    (setSelectedItem s tab).lastTabClosed = s.lastTabClosed := by
  unfold setSelectedItem
  try dsimp only
  (repeat' split) <;> first | rfl | simp

@[simp] theorem setSelectedItem_paletteVisible (s : PageState) (tab : Tab) :
    (setSelectedItem s tab).paletteVisible = s.paletteVisible := by
  unfold setSelectedItem
  try dsimp only
  (repeat' split) <;> first | rfl | simp

@[simp] theorem setSelectedItem_mem_mru (s : PageState) (tab : Tab) (t : Tab) :
    t ∈ (setSelectedItem s tab).mruTabs ↔ t ∈ s.mruTabs := by
  unfold setSelectedItem
  try dsimp only
  (repeat' split) <;> simp

@[simp] theorem onTabItemsChangedRemoved_tabs (s : PageState) (idx : Nat) :
    (onTabItemsChangedRemoved s idx).tabs = s.tabs := by
  unfold onTabItemsChangedRemoved
  try dsimp only
  (repeat' split) <;> first | rfl | simp

@[simp] theorem onTabItemsChangedRemoved_selected (s : PageState) (idx : Nat) :
    (onTabItemsChangedRemoved s idx).selected = s.selected := by
  unfold onTabItemsChangedRemoved
  try dsimp only
  (repeat' split) <;> first | rfl | simp

@[simp] theorem onTabItemsChangedRemoved_flyoutOpen (s : PageState) (idx : Nat) :
    (onTabItemsChangedRemoved s idx).flyoutOpen = s.flyoutOpen := by
  unfold onTabItemsChangedRemoved
  try dsimp only
  (repeat' split) <;> first | rfl | simp

@[simp] theorem onTabItemsChangedRemoved_removing (s : PageState) (idx : Nat) :
    (onTabItemsChangedRemoved s idx).removing = s.removing := by
  unfold onTabItemsChangedRemoved
  try dsimp only
  (repeat' split) <;> first | rfl | simp

@[simp] theorem onTabItemsChangedRemoved_rearranging (s : PageState) (idx : Nat) :
    (onTabItemsChangedRemoved s idx).rearranging = s.rearranging := by
  unfold onTabItemsChangedRemoved
  try dsimp only
  (repeat' split) <;> first | rfl | simp

@[simp] theorem onTabItemsChangedRemoved_settingsTab (s : PageState) (idx : Nat) :
    (onTabItemsChangedRemoved s idx).settingsTab = s.settingsTab := by
  unfold onTabItemsChangedRemoved
  try dsimp only
  (repeat' split) <;> first | rfl | simp

@[simp] theorem onTabItemsChangedRemoved_tabSwitcherMode (s : PageState) (idx : Nat) :
    (onTabItemsChangedRemoved s idx).tabSwitcherMode = s.tabSwitcherMode := by
  unfold onTabItemsChangedRemoved
  try dsimp only
  (repeat' split) <;> first | rfl | simp

@[simp] theorem onTabItemsChangedRemoved_settingsProfiles (s : PageState) (idx : Nat) :
    (onTabItemsChangedRemoved s idx).settingsProfiles = s.settingsProfiles := by
  unfold onTabItemsChangedRemoved
  try dsimp only
  (repeat' split) <;> first | rfl | simp

@[simp] theorem onTabItemsChangedRemoved_inStartup (s : PageState) (idx : Nat) :
    (onTabItemsChangedRemoved s idx).inStartup = s.inStartup := by
  unfold onTabItemsChangedRemoved
  try dsimp only
  (repeat' split) <;> first | rfl | simp

@[simp] theorem onTabItemsChangedRemoved_paneCounts (s : PageState) (idx : Nat) :
    (onTabItemsChangedRemoved s idx).paneCounts = s.paneCounts := by
  unfold onTabItemsChangedRemoved
  try dsimp only
  (repeat' split) <;> first | rfl | simp

@[simp] theorem onTabItemsChangedRemoved_lastTabClosed (s : PageState) (idx : Nat) :
    (onTabItemsChangedRemoved s idx).lastTabClosed = s.lastTabClosed := by
  unfold onTabItemsChangedRemoved
  try dsimp only
  (repeat' split) <;> first | rfl | simp

@[simp] theorem onTabItemsChangedRemoved_paletteVisible (s : PageState) (idx : Nat) :
    (onTabItemsChangedRemoved s idx).paletteVisible = false := by
  unfold onTabItemsChangedRemoved
  try dsimp only
  (repeat' split) <;> simp

@[simp] theorem onTabItemsChangedRemoved_mem_mru (s : PageState) (idx : Nat) (t : Tab) :
    t ∈ (onTabItemsChangedRemoved s idx).mruTabs ↔ t ∈ s.mruTabs := by
  unfold onTabItemsChangedRemoved
  try dsimp only
  (repeat' split) <;> simp

@[simp] theorem onTabItemsChangedInserted_tabs (s : PageState) (idx : Nat) :
    (onTabItemsChangedInserted s idx).tabs = s.tabs := by
  unfold onTabItemsChangedInserted
  try dsimp only
  (repeat' split) <;> first | rfl | simp

@[simp] theorem onTabItemsChangedInserted_selected (s : PageState) (idx : Nat) :
    (onTabItemsChangedInserted s idx).selected = s.selected := by
  unfold onTabItemsChangedInserted
  try dsimp only
  (repeat' split) <;> first | rfl | simp

@[simp] theorem onTabItemsChangedInserted_flyoutOpen (s : PageState) (idx : Nat) :
    (onTabItemsChangedInserted s idx).flyoutOpen = s.flyoutOpen := by
  unfold onTabItemsChangedInserted
  try dsimp only
  (repeat' split) <;> first | rfl | simp

@[simp] theorem onTabItemsChangedInserted_removing (s : PageState) (idx : Nat) :
    (onTabItemsChangedInserted s idx).removing = s.removing := by
  unfold onTabItemsChangedInserted
  try dsimp only
  (repeat' split) <;> first | rfl | simp

@[simp] theorem onTabItemsChangedInserted_rearranging (s : PageState) (idx : Nat) :
    (onTabItemsChangedInserted s idx).rearranging = s.rearranging := by
  unfold onTabItemsChangedInserted
  try dsimp only
  (repeat' split) <;> first | rfl | simp

@[simp] theorem onTabItemsChangedInserted_settingsTab (s : PageState) (idx : Nat) :
    (onTabItemsChangedInserted s idx).settingsTab = s.settingsTab := by
  unfold onTabItemsChangedInserted
  try dsimp only
  (repeat' split) <;> first | rfl | simp

@[simp] theorem onTabItemsChangedInserted_tabSwitcherMode (s : PageState) (idx : Nat) :
    (onTabItemsChangedInserted s idx).tabSwitcherMode = s.tabSwitcherMode := by
  unfold onTabItemsChangedInserted
  try dsimp only
  (repeat' split) <;> first | rfl | simp

@[simp] theorem onTabItemsChangedInserted_settingsProfiles (s : PageState) (idx : Nat) :
    (onTabItemsChangedInserted s idx).settingsProfiles = s.settingsProfiles := by
  unfold onTabItemsChangedInserted
  try dsimp only
  (repeat' split) <;> first | rfl | simp

@[simp] theorem onTabItemsChangedInserted_inStartup (s : PageState) (idx : Nat) :
    (onTabItemsChangedInserted s idx).inStartup = s.inStartup := by
  unfold onTabItemsChangedInserted
  try dsimp only
  (repeat' split) <;> first | rfl | simp

@[simp] theorem onTabItemsChangedInserted_paneCounts (s : PageState) (idx : Nat) :
    (onTabItemsChangedInserted s idx).paneCounts = s.paneCounts := by
  unfold onTabItemsChangedInserted
  try dsimp only
  (repeat' split) <;> first | rfl | simp

@[simp] theorem onTabItemsChangedInserted_lastTabClosed (s : PageState) (idx : Nat) :
    (onTabItemsChangedInserted s idx).lastTabClosed = s.lastTabClosed := by
  unfold onTabItemsChangedInserted
  try dsimp only
  (repeat' split) <;> first | rfl | simp

@[simp] theorem onTabItemsChangedInserted_paletteVisible (s : PageState) (idx : Nat) :
    (onTabItemsChangedInserted s idx).paletteVisible = false := by
  unfold onTabItemsChangedInserted
  try dsimp only
  (repeat' split) <;> simp

@[simp] theorem onTabItemsChangedInserted_mem_mru (s : PageState) (idx : Nat) (t : Tab) :
    t ∈ (onTabItemsChangedInserted s idx).mruTabs ↔ t ∈ s.mruTabs := by
  unfold onTabItemsChangedInserted
  try dsimp only
  (repeat' split) <;> simp

/-! ## Operation-level lemmas -/

/-- Setting the palette visibility to its current value raises no callback. -/
theorem setPaletteVisibility_of_eq {s : PageState} {v : Bool}
    (h : s.paletteVisible = v) : setPaletteVisibility s v = s := by
  simp [setPaletteVisibility, h]

/-- With the palette already hidden and no drag in flight,
`_OnTabItemsChanged` is a complete no-op. -/
theorem onTabItemsChangedInserted_of_quiet {s : PageState} {idx : Nat}
    (hrr : s.rearranging = false) (hp : s.paletteVisible = false) :
    onTabItemsChangedInserted s idx = s := by
  simp [onTabItemsChangedInserted, hrr, setPaletteVisibility_of_eq hp]

/-- With the palette already hidden and no drag in flight,
`_OnTabItemsChanged` is a complete no-op. -/
theorem onTabItemsChangedRemoved_of_quiet {s : PageState} {idx : Nat}
    (hrr : s.rearranging = false) (hp : s.paletteVisible = false) :
    onTabItemsChangedRemoved s idx = s := by
  simp [onTabItemsChangedRemoved, hrr, setPaletteVisibility_of_eq hp]

/-- While the command palette is visible, `_UpdatedSelectedTab` changes
nothing (the GH#7409 preview path). -/
theorem updatedSelectedTab_of_paletteVisible {s : PageState} (i : Int)
    (hp : s.paletteVisible = true) : updatedSelectedTab s i = s := by
  unfold updatedSelectedTab
  (repeat' split) <;> simp_all

/-- While the command palette is visible, selecting a tab item changes at
most the selection. -/
theorem setSelectedItem_of_paletteVisible {s : PageState} (tab : Tab)
    (hp : s.paletteVisible = true) :
    setSelectedItem s tab = s ∨
      setSelectedItem s tab = { s with selected := some tab } := by
  by_cases he : s.selected = some tab
  · exact Or.inl (by simp [setSelectedItem, he])
  · right
    by_cases hflags : s.rearranging = false ∧ s.removing = false
    · have h1 : setSelectedItem s tab =
          updatedSelectedTab { s with selected := some tab }
            (match indexOfTab tab s.tabs with
             | some i => (i : Int)
             | none => -1) := by
        simp [setSelectedItem, he, hflags]
      rw [h1]
      exact updatedSelectedTab_of_paletteVisible _ hp
    · simp [setSelectedItem, he, hflags]

/-- `_UpdateMRUTab` performs exactly the spec's `BumpMRU`: the looked-up tab
moves to the head of the MRU list, the rest keeping its relative order. -/
theorem updateMRUTab_mru_eq_moveToFront {s : PageState} {i : Nat} {t : Tab}
    (hg : s.tabs[i]? = some t) (hm : t ∈ s.mruTabs) :
    (updateMRUTab s i).mruTabs = moveToFront t s.mruTabs := by
  obtain ⟨k, hk⟩ := indexOfTab_isSome_of_mem hm
  by_cases hpos : 0 < k
  · simp [updateMRUTab, hg, hk, hpos, moveToFront, indexOfTab_eraseIdx hk]
  · have hk0 : indexOfTab t s.mruTabs = some 0 := by
      simpa [Nat.eq_zero_of_not_pos hpos] using hk
    have h0 : s.mruTabs[0]? = some t := indexOfTab_getElem hk0
    match hml : s.mruTabs with
    | [] => rw [hml] at h0; cases h0
    | x :: xs =>
      rw [hml] at h0
      simp only [List.getElem?_cons_zero, Option.some.injEq] at h0
      subst h0
      rw [hml] at hk0
      simp [updateMRUTab, hg, hml, hk0, moveToFront, List.erase_cons_head]

/-- Selecting a freshly appended tab item: the `SelectionChanged` cascade
finds the new tab at the end of the display order and bumps it from the tail
of the MRU list to its head. -/
theorem select_appended (u : PageState) (newTab : Tab)
    (baseTabs baseMru : List Tab)
    (htabs : u.tabs = baseTabs ++ [newTab]) (hmru : u.mruTabs = baseMru ++ [newTab])
    (hnt : newTab ∉ baseTabs) (hnm : newTab ∉ baseMru)
    (hsel : u.selected ≠ some newTab)
    (hrr : u.rearranging = false) (hrm : u.removing = false)
    (hp : u.paletteVisible = false) :
    (setSelectedItem u newTab).tabs = u.tabs ∧
    (setSelectedItem u newTab).mruTabs = newTab :: baseMru := by
  refine ⟨setSelectedItem_tabs u newTab, ?_⟩
  have hidx : indexOfTab newTab u.tabs = some baseTabs.length := by
    rw [htabs]; exact indexOfTab_append_self hnt
  have hstep : setSelectedItem u newTab =
      updatedSelectedTab { u with selected := some newTab } (baseTabs.length : Int) := by
    simp [setSelectedItem, hsel, hrr, hrm, hidx]
  rw [hstep]
  set u1 : PageState := { u with selected := some newTab } with hu1
  have hg : u1.tabs[((baseTabs.length : Int)).toNat]? = some newTab := by
    show u.tabs[baseTabs.length]? = some newTab
    rw [htabs]; exact getElem?_append_self _ _
  have hp1 : u1.paletteVisible = false := hp
  have hust : updatedSelectedTab u1 (baseTabs.length : Int) =
      updateMRUTab u1 baseTabs.length := by
    unfold updatedSelectedTab
    rw [if_pos (by positivity)]
    simp only [Int.toNat_natCast] at hg ⊢
    rw [hg, hp1]
    simp
  rw [hust]
  have hmidx : indexOfTab newTab u1.mruTabs = some baseMru.length := by
    show indexOfTab newTab u.mruTabs = some baseMru.length
    rw [hmru]; exact indexOfTab_append_self hnm
  have hg1 : u1.tabs[baseTabs.length]? = some newTab := by
    simpa using hg
  match hbm : baseMru with
  | [] =>
    have hm0 : indexOfTab newTab u1.mruTabs = some 0 := by simpa [hbm] using hmidx
    have : u1.mruTabs = [newTab] := by show u.mruTabs = [newTab]; simpa [hbm] using hmru
    simp [updateMRUTab, hg1, hm0, this]
  | x :: xs =>
    have hmidx' : indexOfTab newTab u1.mruTabs = some (x :: xs).length := by
      simpa [hbm] using hmidx
    have hupd : (updateMRUTab u1 baseTabs.length).mruTabs =
        newTab :: u1.mruTabs.eraseIdx (x :: xs).length := by
      simp [updateMRUTab, hg1, hmidx']
    rw [hupd]
    have : u1.mruTabs = (x :: xs) ++ [newTab] := by
      show u.mruTabs = (x :: xs) ++ [newTab]
      simpa [hbm] using hmru
    rw [this, eraseIdx_append_self]

/-- Selecting the tab stored at a position of a duplicate-free display order
commits the focus to exactly that position and keeps order and palette
state. -/
theorem getFocusedTabIndex_setSelectedItem (s : PageState) {n : Nat} {tab : Tab}
    (hnd : s.tabs.Nodup) (hget : s.tabs[n]? = some tab) :
    getFocusedTabIndex (setSelectedItem s tab) = some n := by
  have hidx : indexOfTab tab s.tabs = some n := indexOfTab_of_nodup_getElem hnd hget
  by_cases he : s.selected = some tab
  · simp [setSelectedItem, he, getFocusedTabIndex, hidx]
  · by_cases hflags : s.rearranging = false ∧ s.removing = false
    · have h1 : setSelectedItem s tab =
          updatedSelectedTab { s with selected := some tab } (n : Int) := by
        simp [setSelectedItem, he, hflags, hidx]
      rw [h1]
      have hsel : (updatedSelectedTab { s with selected := some tab } (n : Int)).selected
          = some tab := by
        rw [updatedSelectedTab_selected]
      have htabs : (updatedSelectedTab { s with selected := some tab } (n : Int)).tabs
          = s.tabs := by
        rw [updatedSelectedTab_tabs]
      simp [getFocusedTabIndex, hsel, htabs, hidx]
    · simp [setSelectedItem, he, hflags, getFocusedTabIndex, hidx]

/-- With the palette already collapsed, `_OnTabItemsChanged` only records
drag bookkeeping. -/
theorem onTabItemsChangedRemoved_eq_of_palette_false {u : PageState} {idx : Nat}
    (hp : u.paletteVisible = false) :
    onTabItemsChangedRemoved u idx =
      if u.rearranging then { u with rearrangeFrom := some idx } else u := by
  unfold onTabItemsChangedRemoved
  by_cases hr : u.rearranging
  · rw [if_pos hr]
    exact setPaletteVisibility_of_eq
      (show ({ u with rearrangeFrom := some idx } : PageState).paletteVisible = false from hp)
  · rw [if_neg hr]
    exact setPaletteVisibility_of_eq hp

/-- With the palette already collapsed, `_OnTabItemsChanged` only records
drag bookkeeping. -/
theorem onTabItemsChangedInserted_eq_of_palette_false {u : PageState} {idx : Nat}
    (hp : u.paletteVisible = false) :
    onTabItemsChangedInserted u idx =
      if u.rearranging then { u with rearrangeTo := some idx } else u := by
  unfold onTabItemsChangedInserted
  by_cases hr : u.rearranging
  · rw [if_pos hr]
    exact setPaletteVisibility_of_eq
      (show ({ u with rearrangeTo := some idx } : PageState).paletteVisible = false from hp)
  · rw [if_neg hr]
    exact setPaletteVisibility_of_eq hp

theorem onTabItemsChangedRemoved_quietFrame (u : PageState) (idx : Nat)
    (hp : u.paletteVisible = false) :
    (onTabItemsChangedRemoved u idx).mruTabs = u.mruTabs ∧
    (onTabItemsChangedRemoved u idx).selected = u.selected ∧
    (onTabItemsChangedRemoved u idx).paletteVisible = false ∧
    (onTabItemsChangedRemoved u idx).tabs = u.tabs := by
  rw [onTabItemsChangedRemoved_eq_of_palette_false hp]
  by_cases hr : u.rearranging <;> simp [hr, hp]

theorem onTabItemsChangedInserted_quietFrame (u : PageState) (idx : Nat)
    (hp : u.paletteVisible = false) :
    (onTabItemsChangedInserted u idx).mruTabs = u.mruTabs ∧
    (onTabItemsChangedInserted u idx).selected = u.selected ∧
    (onTabItemsChangedInserted u idx).paletteVisible = false ∧
    (onTabItemsChangedInserted u idx).tabs = u.tabs := by
  rw [onTabItemsChangedInserted_eq_of_palette_false hp]
  by_cases hr : u.rearranging <;> simp [hr, hp]

/-- Re-selecting the already selected item raises no `SelectionChanged`. -/
theorem setSelectedItem_of_selected_eq {u : PageState} {tab : Tab}
    (h : u.selected = some tab) : setSelectedItem u tab = u := by
  simp [setSelectedItem, h]

theorem zoomSafe_unzoom_single (t : ZoomTab) : zoomSafe [.unzoom] t = true := by
  obtain ⟨z, p⟩ := t
  cases z <;> rfl

theorem zoomSafe_unzoom_pair (x : PaneMicro) (t : ZoomTab) :
    zoomSafe [.unzoom, x] t = true := by
  obtain ⟨z, p⟩ := t
  cases z <;> cases x <;> rfl

/-! ## The claims -/

/-- C10: `_UpdateMRUTab` is idempotent: bumping a tab that is already at the
head (index 0) of the MRU list leaves the list entirely unchanged, and
bumping the same in-order index twice in succession equals bumping it
once. -/
theorem claim_bumpMRU_idempotent (s : PageState) (i : Nat) :
    updateMRUTab (updateMRUTab s i) i = updateMRUTab s i ∧
    (∀ t, s.tabs[i]? = some t → indexOfTab t s.mruTabs = some 0 →
      updateMRUTab s i = s) := by
  constructor
  · rcases hg : s.tabs[i]? with _ | tab
    · simp [updateMRUTab, hg]
    · rcases hk : indexOfTab tab s.mruTabs with _ | k
      · simp [updateMRUTab, hg, hk]
      · by_cases hpos : 0 < k
        · have h1 : updateMRUTab s i =
              { s with mruTabs := tab :: s.mruTabs.eraseIdx k } := by
            simp [updateMRUTab, hg, hk, hpos]
          rw [h1]
          simp [updateMRUTab, hg, indexOfTab_cons_self]
        · simp [updateMRUTab, hg, hk, hpos]
  · intro t hg hk
    simp [updateMRUTab, hg, hk]

theorem claim_bumpMRU_idempotent_witness :
    updateMRUTab (updateMRUTab basePage 1) 1 = updateMRUTab basePage 1 ∧
    updateMRUTab basePage 3 = basePage :=
  ⟨(claim_bumpMRU_idempotent basePage 1).1,
   (claim_bumpMRU_idempotent basePage 3).2 tabD (by decide) (by decide)⟩

/-- C7: every pane operation that mutates or navigates the pane tree
(`_SplitPane`, `_CloseFocusedPane`, `_ResizePane`, `_MoveFocus`) runs
`_UnZoomIfNeeded` before any tree mutation, so along each of their
micro-step traces every tree-mutating step executes on an un-zoomed tab —
the pane tree is never mutated while the tab is zoomed. -/
theorem claim_unzoom_before_tree_mutation (t : ZoomTab)
    (a b c d e f g h r m : Bool) :
    zoomSafe (splitPaneTrace a b c d) t = true ∧
    zoomSafe (closeFocusedPaneTrace e f g h) t = true ∧
    zoomSafe (resizePaneTrace r) t = true ∧
    zoomSafe (moveFocusTrace m) t = true := by
  refine ⟨?_, ?_, ?_, ?_⟩
  · unfold splitPaneTrace
    cases a <;> cases b <;> cases c <;> cases d <;>
      first | rfl | exact zoomSafe_unzoom_pair _ t
  · unfold closeFocusedPaneTrace
    cases e <;> cases f <;> cases g <;> cases h <;>
      first
        | rfl
        | exact zoomSafe_unzoom_single t
        | exact zoomSafe_unzoom_pair _ t
  · unfold resizePaneTrace
    cases r <;> first | rfl | exact zoomSafe_unzoom_pair _ t
  · unfold moveFocusTrace
    cases m <;> rfl

/-- C2 (what the code actually does on an empty collection): `_SelectTab` is
a safe no-op, but `_SelectNextTab` in `Disabled` switcher mode reaches
`(tabCount + index ± 1) % tabCount` with `tabCount = 0` — a modulo by zero,
which is undefined behaviour in the C++ source (modelled as `none`), not the
no-op the specification promises. -/
theorem claim_selectNextTab_empty_ub :
    (∀ b, selectNextTab emptyPage b none = none) ∧
    (∀ i, selectTab emptyPage i = (false, emptyPage)) := by
  constructor
  · intro b
    rfl
  · intro i
    have hlen : emptyPage.tabs.length = 0 := rfl
    simp [selectTab, hlen]

/-- C8: when the focused tab's recorded profile id no longer exists in the
live settings, `_DuplicateFocusedTab` and duplicate-mode `_SplitPane` are
silent no-ops — the entire page state (hence the tab count and every pane
count) is unchanged and nothing is surfaced. -/
theorem claim_duplicate_missing_profile_noop (s : PageState) (tab newTab : Tab)
    (g : Nat) (hft : focusedTerminalTab s = some tab)
    (hprof : tab.profile = some g) (hmiss : g ∉ s.settingsProfiles) :
    duplicateFocusedTab s newTab = s ∧
    ∀ st cs ap, splitPane s st SplitMode.duplicate cs ap = s := by
  constructor
  · simp [duplicateFocusedTab, hft, duplicateTab, hprof, createWithProfileByID, hmiss]
  · intro st cs ap
    by_cases hst : st = SplitKind.noSplit <;>
      simp [splitPane, hst, hft, hprof, createWithProfileByID, hmiss]

theorem claim_duplicate_missing_profile_noop_witness :
    duplicateFocusedTab stalePage tabE = stalePage ∧
    ∀ st cs ap, splitPane stalePage st SplitMode.duplicate cs ap = stalePage :=
  claim_duplicate_missing_profile_noop stalePage tabA tabE 10
    (by decide) (by decide) (by decide)

/-- C9: moving a tab — `_TryMoveTab` on the focused tab with the palette
closed, or a completed drag-reorder — reorders only the display order; the
MRU list is left completely unchanged. -/
theorem claim_move_keeps_mru
    (s : PageState) (cur : Nat) (sug : Int) (tab : Tab)
    (hget : s.tabs[cur]? = some tab) (hsel : s.selected = some tab)
    (hp : s.paletteVisible = false) :
    (tryMoveTab s cur sug).mruTabs = s.mruTabs ∧
    ∀ u : PageState, (tabDragCompleted u).mruTabs = u.mruTabs := by
  constructor
  · set n := (clampInt sug 0 ((s.tabs.length : Int) - 1)).toNat with hn
    by_cases hne : cur ≠ n
    · set s1 : PageState := { s with tabs := (s.tabs.eraseIdx cur).insertIdx n tab } with hs1
      have h1 : tryMoveTab s cur sug =
          setSelectedItem (onTabItemsChangedInserted (onTabItemsChangedRemoved s1 cur) n) tab := by
        simp [tryMoveTab, ← hn, hne, hget, hs1]
      rw [h1]
      have q1 := onTabItemsChangedRemoved_quietFrame s1 cur
        (show s1.paletteVisible = false from hp)
      have q2 := onTabItemsChangedInserted_quietFrame
        (onTabItemsChangedRemoved s1 cur) n q1.2.2.1
      have hsel3 : (onTabItemsChangedInserted (onTabItemsChangedRemoved s1 cur) n).selected
          = some tab := by
        rw [q2.2.1, q1.2.1]
        exact hsel
      rw [setSelectedItem_of_selected_eq hsel3, q2.1, q1.1]
    · simp [tryMoveTab, ← hn, hne]
  · intro u
    unfold tabDragCompleted
    try dsimp only
    (repeat' split) <;> rfl

theorem claim_move_keeps_mru_witness :
    (tryMoveTab basePage 3 0).mruTabs = basePage.mruTabs ∧
    ∀ u : PageState, (tabDragCompleted u).mruTabs = u.mruTabs :=
  claim_move_keeps_mru basePage 3 0 tabD (by decide) (by decide) (by decide)

/-- C1: inserting a tab — `_CreateNewTabFromSettings` for a terminal tab, or
`_OpenSettingsUI` creating a fresh settings tab — appends the new tab to the
display order, and through the final `SelectedItem` cascade the new tab ends
at the front (index 0) of the MRU list: immediately after the insertion it is
the most-recently-used tab. -/
theorem claim_insert_appends_order_heads_mru
    (s : PageState) (newTab : Tab)
    (hrm : s.removing = false) (hrr : s.rearranging = false)
    (hp : s.paletteVisible = false)
    (hft : newTab ∉ s.tabs) (hfm : newTab ∉ s.mruTabs)
    (hsel : s.selected ≠ some newTab) :
    ((createNewTabFromSettings s newTab).tabs = s.tabs ++ [newTab] ∧
     (createNewTabFromSettings s newTab).mruTabs = newTab :: s.mruTabs) ∧
    (s.settingsTab = none →
      (openSettingsUI s newTab).tabs = s.tabs ++ [newTab] ∧
      (openSettingsUI s newTab).mruTabs = newTab :: s.mruTabs) := by
  set s1 : PageState := { s with tabs := s.tabs ++ [newTab], mruTabs := s.mruTabs ++ [newTab], paneCounts := s.paneCounts ++ [(newTab.id, 1)] } with hs1
  constructor
  · have hform : createNewTabFromSettings s newTab =
        setSelectedItem (onTabItemsChangedInserted s1 s.tabs.length) newTab := rfl
    rw [hform, onTabItemsChangedInserted_of_quiet (show s1.rearranging = false from hrr)
      (show s1.paletteVisible = false from hp)]
    exact select_appended s1 newTab s.tabs s.mruTabs rfl rfl hft hfm
      (show s1.selected ≠ some newTab from hsel)
      (show s1.rearranging = false from hrr)
      (show s1.removing = false from hrm)
      (show s1.paletteVisible = false from hp)
  · intro hset
    set s1n : PageState := { s with tabs := s.tabs ++ [newTab], mruTabs := s.mruTabs ++ [newTab], settingsTab := none, paneCounts := s.paneCounts ++ [(newTab.id, 1)] } with hs1n
    have hform2 : openSettingsUI s newTab =
        setSelectedItem
          { onTabItemsChangedInserted s1n s.tabs.length with settingsTab := some newTab }
          newTab := by
      unfold openSettingsUI
      rw [hset]
    rw [hform2, onTabItemsChangedInserted_of_quiet (show s1n.rearranging = false from hrr)
      (show s1n.paletteVisible = false from hp)]
    exact select_appended { s1n with settingsTab := some newTab } newTab s.tabs s.mruTabs
      rfl rfl hft hfm
      (show s.selected ≠ some newTab from hsel)
      (show s.rearranging = false from hrr)
      (show s.removing = false from hrm)
      (show s.paletteVisible = false from hp)

theorem claim_insert_appends_order_heads_mru_witness :
    ((createNewTabFromSettings basePage tabE).tabs = basePage.tabs ++ [tabE] ∧
     (createNewTabFromSettings basePage tabE).mruTabs = tabE :: basePage.mruTabs) ∧
    (basePage.settingsTab = none →
      (openSettingsUI basePage tabE).tabs = basePage.tabs ++ [tabE] ∧
      (openSettingsUI basePage tabE).mruTabs = tabE :: basePage.mruTabs) :=
  claim_insert_appends_order_heads_mru basePage tabE
    (by decide) (by decide) (by decide) (by decide) (by decide) (by decide)

/-- C6: with the switcher mode `Disabled` and `N ≥ 1` tabs, a next/previous
request immediately commits focus to display index `(i + 1 + N) % N`
(next) or `(i - 1 + N) % N` (previous) — wraparound over the display order,
no transient switcher state (the palette stays as it was). -/
theorem claim_selectNextTab_disabled
    (s : PageState) (bMoveRight : Bool) (i : Nat)
    (hmode : s.tabSwitcherMode = TabSwitcherMode.disabled)
    (hfoc : getFocusedTabIndex s = some i)
    (hnd : s.tabs.Nodup) (hstart : s.inStartup = false)
    (hsize : s.tabs.length < 2 ^ 31) (hpos : 1 ≤ s.tabs.length) :
    ∃ s', selectNextTab s bMoveRight none = some s' ∧
      getFocusedTabIndex s' = some (if bMoveRight
          then (i + 1 + s.tabs.length) % s.tabs.length
          else (i + s.tabs.length - 1) % s.tabs.length) ∧
      s'.tabs = s.tabs ∧ s'.paletteVisible = s.paletteVisible := by
  have hiN : i < s.tabs.length := by
    rcases hq : s.selected with _ | t0
    · rw [getFocusedTabIndex, hq] at hfoc
      cases hfoc
    · rw [getFocusedTabIndex, hq] at hfoc
      exact indexOfTab_lt_length hfoc
  have h31 : (2 : Nat) ^ 31 = 2147483648 := by norm_num
  rw [h31] at hsize
  have harith : ((s.tabs.length + i + (if bMoveRight then 1 else u32 - 1)) % u32)
        % s.tabs.length
      = (if bMoveRight
          then (i + 1 + s.tabs.length) % s.tabs.length
          else (i + s.tabs.length - 1) % s.tabs.length) := by
    cases bMoveRight
    · simp only [if_false, Bool.false_eq_true]
      have h1 : s.tabs.length + i + (u32 - 1) = (i + s.tabs.length - 1) + 1 * u32 := by
        unfold u32
        omega
      rw [h1, Nat.add_mul_mod_self_right,
        Nat.mod_eq_of_lt (show i + s.tabs.length - 1 < u32 by unfold u32; omega)]
    · simp only [if_true]
      rw [Nat.mod_eq_of_lt (show s.tabs.length + i + 1 < u32 by unfold u32; omega)]
      congr 1
      omega
  set newIdx := ((s.tabs.length + i + (if bMoveRight then 1 else u32 - 1)) % u32)
      % s.tabs.length with hni
  have hlt : newIdx < s.tabs.length := Nat.mod_lt _ (by omega)
  have hget : s.tabs[newIdx]? = some s.tabs[newIdx] := List.getElem?_eq_getElem hlt
  have hne0 : s.tabs.length ≠ 0 := by omega
  have hred : selectNextTab s bMoveRight none = some (selectTab s newIdx).2 := by
    simp only [selectNextTab, hfoc, hmode, Option.getD_some, Option.getD_none,
      if_pos rfl, if_neg hne0, ← hni]
    simp
  have hsel2 : (selectTab s newIdx).2 = setSelectedItem s s.tabs[newIdx] := by
    unfold selectTab
    rw [if_pos hlt, hget, hstart]
    simp
  refine ⟨setSelectedItem s s.tabs[newIdx], ?_, ?_, ?_, ?_⟩
  · rw [hred, hsel2]
  · rw [getFocusedTabIndex_setSelectedItem s hnd hget, ← harith]
  · rw [setSelectedItem_tabs]
  · rw [setSelectedItem_paletteVisible]

theorem claim_selectNextTab_disabled_witness :
    ∃ s', selectNextTab basePage true none = some s' ∧
      getFocusedTabIndex s' = some (if true
          then (3 + 1 + basePage.tabs.length) % basePage.tabs.length
          else (3 + basePage.tabs.length - 1) % basePage.tabs.length) ∧
      s'.tabs = basePage.tabs ∧ s'.paletteVisible = basePage.paletteVisible :=
  claim_selectNextTab_disabled basePage true 3
    (by decide) (by decide) (by decide) (by decide) (by decide) (by decide)

/-- While the command palette is visible, one preview step (tab switcher
raises `SwitchToTabRequested`, handled by `_OnSwitchToTabRequested` →
`_SelectTab`) changes at most the selection. -/
theorem onSwitchToTabRequested_of_paletteVisible (s : PageState) (tab : Tab)
    (hp : s.paletteVisible = true) :
    onSwitchToTabRequested s tab = s ∨
      ∃ t, onSwitchToTabRequested s tab = { s with selected := some t } := by
  rcases hidx : indexOfTab tab s.tabs with _ | index
  · exact Or.inl (by simp [onSwitchToTabRequested, hidx])
  · have hred : onSwitchToTabRequested s tab = (selectTab s index).2 := by
      simp [onSwitchToTabRequested, hidx]
    rw [hred]
    by_cases hlt : index < s.tabs.length
    · rcases hget : s.tabs[index]? with _ | tb
      · exact Or.inl (by simp [selectTab, hlt, hget])
      · by_cases hst : s.inStartup
        · have h1 : (selectTab s index).2 =
              updatedSelectedTab (setSelectedItem s tb) (index : Int) := by
            simp [selectTab, hlt, hget, hst]
          have hps : (setSelectedItem s tb).paletteVisible = true := by
            rw [setSelectedItem_paletteVisible]
            exact hp
          rw [h1, updatedSelectedTab_of_paletteVisible _ hps]
          rcases setSelectedItem_of_paletteVisible tb hp with h | h
          · exact Or.inl h
          · exact Or.inr ⟨tb, h⟩
        · have h1 : (selectTab s index).2 = setSelectedItem s tb := by
            simp [selectTab, hlt, hget, hst]
          rw [h1]
          rcases setSelectedItem_of_paletteVisible tb hp with h | h
          · exact Or.inl h
          · exact Or.inr ⟨tb, h⟩
    · exact Or.inl (by simp [selectTab, hlt])

/-- Folding any sequence of preview steps over a state with the palette open
changes at most the selection. -/
theorem previewFold_eq (ts : List Tab) (s : PageState)
    (hp : s.paletteVisible = true) :
    ∃ sel, ts.foldl onSwitchToTabRequested s = { s with selected := sel } := by
  induction ts generalizing s with
  | nil => exact ⟨s.selected, rfl⟩
  | cons t ts ih =>
    rcases onSwitchToTabRequested_of_paletteVisible s t hp with h | ⟨x, h⟩
    · rw [List.foldl_cons, h]
      exact ih s hp
    · have hp2 : ({ s with selected := some x } : PageState).paletteVisible = true := hp
      obtain ⟨sel, hsel⟩ := ih { s with selected := some x } hp2
      exact ⟨sel, by rw [List.foldl_cons, h]; exact hsel⟩

/-- C4: while the tab switcher (command palette) is open, every next/previous
step only previews a tab — the MRU list after any sequence of preview steps
equals the MRU list when the switcher opened — and the single dismissal of
the palette commits the previewed tab, at which point the MRU list is updated
exactly once: it becomes `BumpMRU(previewedTab)` = move-to-front of the
previewed tab over the untouched MRU list. -/
theorem claim_switcher_preview_then_single_commit
    (s : PageState) (ts : List Tab)
    (hp : s.paletteVisible = true) (hf : s.flyoutOpen = false) :
    (ts.foldl onSwitchToTabRequested s).mruTabs = s.mruTabs ∧
    (ts.foldl onSwitchToTabRequested s).tabs = s.tabs ∧
    (∀ i t, getFocusedTabIndex (ts.foldl onSwitchToTabRequested s) = some i →
      (ts.foldl onSwitchToTabRequested s).tabs[i]? = some t →
      t ∈ (ts.foldl onSwitchToTabRequested s).mruTabs →
      (setPaletteVisibility (ts.foldl onSwitchToTabRequested s) false).mruTabs =
        moveToFront t (ts.foldl onSwitchToTabRequested s).mruTabs) := by
  obtain ⟨sel, hfold⟩ := previewFold_eq ts s hp
  rw [hfold]
  refine ⟨rfl, rfl, ?_⟩
  intro i t hfoc hget hmem
  set sFin : PageState := { s with selected := sel } with hsFin
  have hpv : sFin.paletteVisible = true := hp
  have hfly : sFin.flyoutOpen = false := hf
  have h1 : setPaletteVisibility sFin false =
      commandPaletteClosed { sFin with paletteVisible := false } := by
    unfold setPaletteVisibility
    rw [if_neg (by rw [hpv]; simp)]
    rfl
  have hfoc2 : getFocusedTabIndex { sFin with paletteVisible := false } = some i := hfoc
  have h2 : commandPaletteClosed { sFin with paletteVisible := false } =
      updateMRUTab { sFin with paletteVisible := false } i := by
    unfold commandPaletteClosed
    rw [if_neg (by rw [show ({ sFin with paletteVisible := false } : PageState).flyoutOpen = false from hfly]; simp), hfoc2]
  rw [h1, h2]
  exact updateMRUTab_mru_eq_moveToFront
    (show ({ sFin with paletteVisible := false } : PageState).tabs[i]? = some t from hget)
    (show t ∈ ({ sFin with paletteVisible := false } : PageState).mruTabs from hmem)

theorem claim_switcher_preview_then_single_commit_witness :
    (([tabB, tabC] : List Tab).foldl onSwitchToTabRequested palettePage).mruTabs
        = palettePage.mruTabs ∧
    (([tabB, tabC] : List Tab).foldl onSwitchToTabRequested palettePage).tabs
        = palettePage.tabs ∧
    (∀ i t,
      getFocusedTabIndex (([tabB, tabC] : List Tab).foldl onSwitchToTabRequested palettePage) = some i →
      (([tabB, tabC] : List Tab).foldl onSwitchToTabRequested palettePage).tabs[i]? = some t →
      t ∈ (([tabB, tabC] : List Tab).foldl onSwitchToTabRequested palettePage).mruTabs →
      (setPaletteVisibility (([tabB, tabC] : List Tab).foldl onSwitchToTabRequested palettePage) false).mruTabs =
        moveToFront t (([tabB, tabC] : List Tab).foldl onSwitchToTabRequested palettePage).mruTabs) :=
  claim_switcher_preview_then_single_commit palettePage [tabB, tabC]
    (by decide) (by decide)

/-- Replacing the element at a position of a duplicate-free list by
erase-then-reinsert preserves the member set. -/
theorem mem_insertIdx_eraseIdx {l : List Tab} {tab t : Tab} {c n : Nat}
    (hnd : l.Nodup) (hget : l[c]? = some tab) (hn : n ≤ (l.eraseIdx c).length) :
    t ∈ (l.eraseIdx c).insertIdx n tab ↔ t ∈ l := by
  rw [List.mem_insertIdx hn, indexOfTab_eraseIdx (indexOfTab_of_nodup_getElem hnd hget)]
  constructor
  · rintro (rfl | ht)
    · exact List.getElem?_mem hget
    · exact List.mem_of_mem_erase ht
  · intro ht
    by_cases hteq : t = tab
    · exact Or.inl hteq
    · exact Or.inr ((List.mem_erase_of_ne hteq).mpr ht)

/-- C5: after every Insert (new terminal tab or settings tab), Remove, Move
(`_TryMoveTab` or drag-reorder), or BumpMRU operation, the set of tabs in the
display order equals the set of tabs in the MRU order. -/
theorem claim_order_mru_same_set (op : PageOp) (s : PageState)
    (hinv : ∀ t, t ∈ s.tabs ↔ t ∈ s.mruTabs)
    (hnd : s.tabs.Nodup) (hndm : s.mruTabs.Nodup)
    (hdrag : ∀ fromIdx toIdx, op = PageOp.drag → s.rearrangeFrom = some fromIdx →
      s.rearrangeTo = some toIdx → toIdx < s.tabs.length) :
    ∀ t, t ∈ (applyPageOp op s).tabs ↔ t ∈ (applyPageOp op s).mruTabs := by
  intro t
  match op with
  | .insertTab n =>
    show t ∈ (createNewTabFromSettings s n).tabs ↔
      t ∈ (createNewTabFromSettings s n).mruTabs
    simp [createNewTabFromSettings, hinv t]
  | .openSettings n =>
    show t ∈ (openSettingsUI s n).tabs ↔ t ∈ (openSettingsUI s n).mruTabs
    rcases hst : s.settingsTab with _ | st
    · simp [openSettingsUI, hst, hinv t]
    · simp [openSettingsUI, hst, hinv t]
  | .bump i =>
    show t ∈ (updateMRUTab s i).tabs ↔ t ∈ (updateMRUTab s i).mruTabs
    simp [hinv t]
  | .move c g =>
    show t ∈ (tryMoveTab s c g).tabs ↔ t ∈ (tryMoveTab s c g).mruTabs
    by_cases hne : c ≠ (clampInt g 0 ((s.tabs.length : Int) - 1)).toNat
    · rcases hget : s.tabs[c]? with _ | tab
      · simp [tryMoveTab, hne, hget, hinv t]
      · have hc : c < s.tabs.length := (List.getElem?_eq_some.mp hget).1
        have hbound : (clampInt g 0 ((s.tabs.length : Int) - 1)).toNat ≤
            (s.tabs.eraseIdx c).length := by
          rw [List.length_eraseIdx]
          simp only [hc, if_pos]
          have h1 : clampInt g 0 ((s.tabs.length : Int) - 1) ≤ (s.tabs.length : Int) - 1 :=
            min_le_right _ _
          omega
        simp [tryMoveTab, hne, hget, mem_insertIdx_eraseIdx hnd hget hbound, hinv t]
    · simp [tryMoveTab, hne, hinv t]
  | .drag =>
    show t ∈ (tabDragCompleted s).tabs ↔ t ∈ (tabDragCompleted s).mruTabs
    rcases hf : s.rearrangeFrom with _ | fromIdx
    · simp [tabDragCompleted, hf, hinv t]
    · rcases hto : s.rearrangeTo with _ | toIdx
      · simp [tabDragCompleted, hf, hto, hinv t]
      · by_cases hne : toIdx ≠ fromIdx
        · rcases hget : s.tabs[fromIdx]? with _ | tab
          · simp [tabDragCompleted, hf, hto, hne, hget, hinv t]
          · have hfl : fromIdx < s.tabs.length := (List.getElem?_eq_some.mp hget).1
            have htl : toIdx < s.tabs.length := hdrag fromIdx toIdx rfl hf hto
            have hbound : toIdx ≤ (s.tabs.eraseIdx fromIdx).length := by
              rw [List.length_eraseIdx]
              simp only [hfl, if_pos]
              omega
            simp [tabDragCompleted, hf, hto, hne, hget,
              mem_insertIdx_eraseIdx hnd hget hbound, hinv t]
        · simp [tabDragCompleted, hf, hto, hne, hinv t]
  | .remove tab d =>
    show t ∈ (removeTab s tab d).tabs ↔ t ∈ (removeTab s tab d).mruTabs
    by_cases hguard : tab.readOnly = true ∧ d = false
    · simp [removeTab, hguard, hinv t]
    · rcases hidx : indexOfTab tab s.tabs with _ | tabIndex
      · simp [removeTab, hguard, hidx, hinv t]
      · have hmemM : tab ∈ s.mruTabs := (hinv tab).mp (indexOfTab_mem hidx)
        obtain ⟨j, hj⟩ := indexOfTab_isSome_of_mem hmemM
        have key : ∀ x : Tab, x ∈ s.tabs.eraseIdx tabIndex ↔ x ∈ s.mruTabs.eraseIdx j := by
          intro x
          rw [indexOfTab_eraseIdx hidx, indexOfTab_eraseIdx hj,
            hnd.mem_erase_iff, hndm.mem_erase_iff]
          exact and_congr_right fun _ => hinv x
        simp only [removeTab, hguard, hidx, hj]
        try dsimp only
        (repeat' split) <;> first | exact hinv t | simp [key t]

theorem claim_order_mru_same_set_witness :
    tabC ∈ (applyPageOp (PageOp.remove tabB true) basePage).tabs ↔
      tabC ∈ (applyPageOp (PageOp.remove tabB true) basePage).mruTabs :=
  claim_order_mru_same_set (PageOp.remove tabB true) basePage
    (by intro t; simp [basePage]; tauto) (by decide) (by decide)
    (by intro a b h; cases h) tabC

theorem indexOfTab_of_getElem0 {l : List Tab} {x : Tab} (h : l[0]? = some x) :
    indexOfTab x l = some 0 := by
  cases l with
  | nil => cases h
  | cons a as =>
    simp only [List.getElem?_cons_zero, Option.some.injEq] at h
    subst h
    exact indexOfTab_cons_self _ _

/-- A page whose selected item is no longer among the tab items reports no
focused index. -/
theorem getFocusedTabIndex_eq_none {u : PageState}
    (h : ∀ t, u.selected = some t → t ∉ u.tabs) : getFocusedTabIndex u = none := by
  unfold getFocusedTabIndex
  rcases hq : u.selected with _ | t
  · rfl
  · exact indexOfTab_eq_none_of_not_mem (h t hq)

/-- `_CommandPaletteClosed` on a page without a focused tab changes
nothing. -/
theorem commandPaletteClosed_of_unfocused {u : PageState}
    (h : getFocusedTabIndex u = none) : commandPaletteClosed u = u := by
  unfold commandPaletteClosed
  by_cases hf : u.flyoutOpen
  · rw [if_pos hf]
  · rw [if_neg hf, h]

/-- Collapsing the palette while the selected item is gone from the tab list
only clears the visibility flag (no MRU bump can happen). -/
theorem setPaletteVisibility_false_of_unfocused {u : PageState}
    (h : ∀ t, u.selected = some t → t ∉ u.tabs) :
    setPaletteVisibility u false = { u with paletteVisible := false } := by
  unfold setPaletteVisibility
  by_cases hp : u.paletteVisible = false
  · rw [if_pos hp, ← hp]
  · rw [if_neg hp]
    show commandPaletteClosed { u with paletteVisible := false } = _
    exact commandPaletteClosed_of_unfocused
      (getFocusedTabIndex_eq_none (fun t ht => h t ht))

/-- `_OnTabItemsChanged` after removing the selected tab's item (no drag in
flight): the palette is collapsed and nothing else changes. -/
theorem onTabItemsChangedRemoved_quiet_unfocused {u : PageState} {idx : Nat}
    (hr : u.rearranging = false)
    (h : ∀ t, u.selected = some t → t ∉ u.tabs) :
    onTabItemsChangedRemoved u idx = { u with paletteVisible := false } := by
  unfold onTabItemsChangedRemoved
  rw [if_neg (by simp [hr])]
  exact setPaletteVisibility_false_of_unfocused h

/-- C3: removing the focused tab at display index `i` from a collection that
stays non-empty: in `MostRecentlyUsed` switcher mode the new focused
(selected) tab is `mru[0]` of the post-removal MRU list; in every other mode
it is the tab now occupying index `clamp(i - 1, 0, count - 1)` of the
post-removal display order (`count` = tab count after removal). -/
theorem claim_focus_replacement_on_close
    (s : PageState) (tab : Tab) (d : Bool) (i : Nat)
    (hro : tab.readOnly = false)
    (hidx : indexOfTab tab s.tabs = some i)
    (hsel : s.selected = some tab)
    (hnd : s.tabs.Nodup) (hndm : s.mruTabs.Nodup)
    (hinv : ∀ t, t ∈ s.tabs ↔ t ∈ s.mruTabs)
    (hrr : s.rearranging = false)
    (hlen : 2 ≤ s.tabs.length) :
    (removeTab s tab d).tabs = s.tabs.eraseIdx i ∧
    (s.tabSwitcherMode = TabSwitcherMode.mostRecentlyUsed →
      (removeTab s tab d).selected = (removeTab s tab d).mruTabs[0]?) ∧
    (s.tabSwitcherMode ≠ TabSwitcherMode.mostRecentlyUsed →
      (removeTab s tab d).selected =
        (removeTab s tab d).tabs[min (i - 1) ((removeTab s tab d).tabs.length - 1)]?) := by
  have hguard : ¬(tab.readOnly = true ∧ d = false) := by simp [hro]
  have hilt : i < s.tabs.length := indexOfTab_lt_length hidx
  obtain ⟨j, hj⟩ := indexOfTab_isSome_of_mem ((hinv tab).mp (indexOfTab_mem hidx))
  have htabs_e : s.tabs.eraseIdx i = s.tabs.erase tab := indexOfTab_eraseIdx hidx
  have hmru_e : s.mruTabs.eraseIdx j = s.mruTabs.erase tab := indexOfTab_eraseIdx hj
  have hlen3 : (s.tabs.eraseIdx i).length = s.tabs.length - 1 := by
    rw [List.length_eraseIdx]
    simp [hilt]
  have htabnm : tab ∉ s.tabs.eraseIdx i := by
    rw [htabs_e]
    intro hmem
    exact absurd (hnd.mem_erase_iff.mp hmem).1 (by simp)
  set s4 : PageState := { s with removing := true, mruTabs := s.mruTabs.eraseIdx j, tabs := s.tabs.eraseIdx i, paletteVisible := false } with hs4
  have hfoc1 : getFocusedTabIndex { s with removing := true } = some i := by
    unfold getFocusedTabIndex
    simp only [hsel]
    exact hidx
  have h4eq : onTabItemsChangedRemoved { s with removing := true, mruTabs := s.mruTabs.eraseIdx j, tabs := s.tabs.eraseIdx i } i = s4 :=
    onTabItemsChangedRemoved_quiet_unfocused hrr
      (fun t ht => (Option.some.inj (hsel ▸ ht : some tab = some t)) ▸ htabnm)
  have hlen0 : ¬(s4.tabs.length = 0) := by
    show ¬((s.tabs.eraseIdx i).length = 0)
    omega
  have hr4 : s4.rearranging = false := hrr
  have hrm4 : s4.removing = true := rfl
  have hp4 : s4.paletteVisible = false := rfl
  have hsel4 : s4.selected = some tab := hsel
  by_cases hmode : s.tabSwitcherMode = TabSwitcherMode.mostRecentlyUsed
  · -- MostRecentlyUsed mode
    have hmode4 : s4.tabSwitcherMode = TabSwitcherMode.mostRecentlyUsed := hmode
    have hperm : s.tabs.Perm s.mruTabs := (List.perm_ext_iff_of_nodup hnd hndm).mpr hinv
    have hmlen : s.mruTabs.length = s.tabs.length := hperm.length_eq.symm
    have hjlt : j < s.mruTabs.length := indexOfTab_lt_length hj
    have hmru3len : 1 ≤ (s.mruTabs.eraseIdx j).length := by
      rw [List.length_eraseIdx]
      simp only [hjlt, if_pos]
      omega
    obtain ⟨nt, hnt⟩ : ∃ nt, (s.mruTabs.eraseIdx j)[0]? = some nt := by
      cases hml : s.mruTabs.eraseIdx j with
      | nil =>
        rw [hml] at hmru3len
        simp at hmru3len
      | cons x xs => exact ⟨x, by simp⟩
    have hnt_mem_er : nt ∈ s.mruTabs.erase tab := by
      rw [← hmru_e]
      exact List.getElem?_mem hnt
    have hnt_ne : nt ≠ tab := (hndm.mem_erase_iff.mp hnt_mem_er).1
    have hnt_mem3 : nt ∈ s.tabs.eraseIdx i := by
      rw [htabs_e]
      exact (List.mem_erase_of_ne hnt_ne).mpr
        ((hinv nt).mpr (List.mem_of_mem_erase hnt_mem_er))
    obtain ⟨k, hk⟩ := indexOfTab_isSome_of_mem hnt_mem3
    have hnt4 : s4.mruTabs[0]? = some nt := hnt
    have hk4 : indexOfTab nt s4.tabs = some k := hk
    have hs4get : s4.tabs[((k : Int)).toNat]? = some nt := by
      simpa using indexOfTab_getElem hk
    have hntfirst : indexOfTab nt s4.mruTabs = some 0 := indexOfTab_of_getElem0 hnt
    have hupd : updatedSelectedTab s4 (k : Int) = s4 := by
      unfold updatedSelectedTab
      rw [if_pos (by positivity), hs4get, hp4]
      simp [updateMRUTab, show s4.tabs[k]? = some nt by simpa using hs4get, hntfirst]
    have hssi : setSelectedItem s4 nt = { s4 with selected := some nt } := by
      have hne : ¬(s4.selected = some nt) := by
        rw [hsel4]
        simp [hnt_ne.symm]
      simp [setSelectedItem, hne, hrm4]
    have hmain : removeTab s tab d = { s4 with selected := some nt, removing := false } := by
      unfold removeTab
      rw [if_neg hguard]
      simp only [hidx, hfoc1, hj, h4eq, hlen0, hmode4, hnt4, hk4, hupd, hssi, hr4]
      simp [hrr]
    refine ⟨by rw [hmain], fun _ => by rw [hmain]; exact hnt4.symm, fun hcon => absurd hmode hcon⟩
  · -- in-order / disabled modes
    have hmode4 : ¬(s4.tabSwitcherMode = TabSwitcherMode.mostRecentlyUsed) := hmode
    have hi1lt : i - 1 < (s.tabs.eraseIdx i).length := by omega
    have hclampv : clampInt ((i : Int) - 1) 0 ((s4.tabs.length : Int)) = ((i - 1 : Nat) : Int) := by
      show clampInt ((i : Int) - 1) 0 (((s.tabs.eraseIdx i).length : Int)) = _
      unfold clampInt
      rw [Int.max_def, Int.min_def]
      split <;> split <;> omega
    obtain ⟨nt, hnt⟩ : ∃ nt, (s.tabs.eraseIdx i)[i - 1]? = some nt :=
      ⟨_, List.getElem?_eq_getElem hi1lt⟩
    have hnt_mem3 : nt ∈ s.tabs.eraseIdx i := List.getElem?_mem hnt
    have hnt_ne : nt ≠ tab := by
      rw [htabs_e] at hnt_mem3
      exact (hnd.mem_erase_iff.mp hnt_mem3).1
    have hget4 : s4.tabs[(((i - 1 : Nat) : Int)).toNat]? = some nt := by
      simpa using hnt
    have hupd : updatedSelectedTab s4 (((i - 1 : Nat) : Int)) =
        updateMRUTab s4 (i - 1) := by
      unfold updatedSelectedTab
      rw [if_pos (by positivity), hget4, hp4]
      simp
    have hssi : setSelectedItem (updateMRUTab s4 (i - 1)) nt =
        { updateMRUTab s4 (i - 1) with selected := some nt } := by
      have hne2 : ¬(s.selected = some nt) := by
        rw [hsel]
        simp [hnt_ne.symm]
      simp [setSelectedItem, hne2]
    have hmain : removeTab s tab d =
        { updateMRUTab s4 (i - 1) with selected := some nt, removing := false } := by
      unfold removeTab
      rw [if_neg hguard]
      simp only [hidx, hfoc1, hj, h4eq, hlen0, hmode4, hclampv, hupd, hget4, hssi,
        updateMRUTab_rearranging, hr4]
      simp [hrr]
    have hmin : min (i - 1) ((s.tabs.eraseIdx i).length - 1) = i - 1 := by omega
    refine ⟨by rw [hmain]; exact updateMRUTab_tabs s4 (i - 1),
      fun hcon => absurd hcon hmode, fun _ => ?_⟩
    rw [hmain]
    show some nt = _
    have htabs_fin : ({ updateMRUTab s4 (i - 1) with selected := some nt, removing := false } : PageState).tabs = s.tabs.eraseIdx i := updateMRUTab_tabs s4 (i - 1)
    rw [htabs_fin, hmin]
    exact hnt.symm

theorem claim_focus_replacement_on_close_witness :
    (removeTab basePage tabD true).tabs = basePage.tabs.eraseIdx 3 ∧
    (basePage.tabSwitcherMode = TabSwitcherMode.mostRecentlyUsed →
      (removeTab basePage tabD true).selected = (removeTab basePage tabD true).mruTabs[0]?) ∧
    (basePage.tabSwitcherMode ≠ TabSwitcherMode.mostRecentlyUsed →
      (removeTab basePage tabD true).selected =
        (removeTab basePage tabD true).tabs[min (3 - 1) ((removeTab basePage tabD true).tabs.length - 1)]?) :=
  claim_focus_replacement_on_close basePage tabD true 3
    (by decide) (by decide) (by decide) (by decide) (by decide)
    (by intro t; simp [basePage]; tauto) (by decide) (by decide)

end Terminal
